import Mathlib

/-!
Verification of the snapshot image-comparison subsystem
(`src/sentry/preprod/snapshots/`): the batch scheduler, the odiff engine
adapter, the pairwise image comparator, the comparison orchestrator and the
presentation categorizer, shallowly embedded in Lean with external
collaborators (blob store, database, child process I/O, image codec)
abstracted as explicit oracles.
-/

namespace Snapshots

/-- Constant `MAX_DIFF_PIXELS` from `tasks.py`. -/
def MAX_DIFF_PIXELS : Nat := 40000000

/-- Constant `MAX_PIXELS_PER_BATCH` from `tasks.py`. -/
def MAX_PIXELS_PER_BATCH : Nat := 40000000

/-- `_DiffCandidate` from `tasks.py`: a pending pairwise comparison. -/
structure DiffCandidate where
  name : String
  head_hash : String
  base_hash : String
  pixel_count : Nat
  deriving DecidableEq, Repr

/-- Tail of the loop in `_create_pixel_batches` (`tasks.py` lines 41-59):
`cur` is `current_batch`, `curPixels` is `current_pixels`; closing the final
non-empty batch corresponds to lines 57-58. -/
def createPixelBatchesAux (maxPixelsPerBatch : Nat) :
    List DiffCandidate → List DiffCandidate → Nat → List (List DiffCandidate)
  | [], cur, _ => if cur = [] then [] else [cur]
  | item :: rest, cur, curPixels =>
    if curPixels + item.pixel_count > maxPixelsPerBatch ∧ cur ≠ [] then
      cur :: createPixelBatchesAux maxPixelsPerBatch rest [item] item.pixel_count
    else
      createPixelBatchesAux maxPixelsPerBatch rest (cur ++ [item])
        (curPixels + item.pixel_count)

/-- `_create_pixel_batches` from `tasks.py`: greedy linear partition of the
candidate list into pixel-budgeted batches. -/
def create_pixel_batches (items : List DiffCandidate) (maxPixelsPerBatch : Nat) :
    List (List DiffCandidate) :=
  createPixelBatchesAux maxPixelsPerBatch items [] 0

/-- Sum of the `pixel_count` fields of a batch. -/
def batchPixels (batch : List DiffCandidate) : Nat :=
  (batch.map DiffCandidate.pixel_count).sum

lemma createPixelBatchesAux_flatten (maxP : Nat) :
    ∀ (items cur : List DiffCandidate) (curPixels : Nat),
      (createPixelBatchesAux maxP items cur curPixels).flatten = cur ++ items := by
  intro items
  induction items with
  | nil =>
    intro cur curPixels
    by_cases h : cur = []
    · simp [createPixelBatchesAux, h]
    · simp [createPixelBatchesAux, h]
  | cons item rest ih =>
    intro cur curPixels
    by_cases h : curPixels + item.pixel_count > maxP ∧ cur ≠ []
    · simp [createPixelBatchesAux, h, ih]
    · simp [createPixelBatchesAux, h, ih]

lemma createPixelBatchesAux_budget (maxP : Nat) :
    ∀ (items cur : List DiffCandidate),
      (batchPixels cur ≤ maxP ∨ ∃ c, cur = [c] ∧ c.pixel_count > maxP) →
      ∀ b ∈ createPixelBatchesAux maxP items cur (batchPixels cur),
        batchPixels b ≤ maxP ∨ ∃ c, b = [c] ∧ c.pixel_count > maxP := by
  intro items
  induction items with
  | nil =>
    intro cur hcur b hb
    by_cases h : cur = []
    · simp [createPixelBatchesAux, h] at hb
    · simp only [createPixelBatchesAux, h, if_neg] at hb
      simp at hb
      subst hb; exact hcur
  | cons item rest ih =>
    intro cur hcur b hb
    by_cases h : batchPixels cur + item.pixel_count > maxP ∧ cur ≠ []
    · simp only [createPixelBatchesAux] at hb
      rw [if_pos h] at hb
      rcases List.mem_cons.mp hb with rfl | hb
      · exact hcur
      · have hsingle : batchPixels [item] ≤ maxP ∨
            ∃ c, [item] = [c] ∧ c.pixel_count > maxP := by
          by_cases hp : item.pixel_count ≤ maxP
          · left; simp [batchPixels, hp]
          · right; exact ⟨item, rfl, by omega⟩
        have := ih [item] hsingle b
        simp only [batchPixels, List.map_cons, List.map_nil, List.sum_cons,
          List.sum_nil, Nat.add_zero] at this
        exact this hb
    · simp only [createPixelBatchesAux] at hb
      rw [if_neg h] at hb
      have hgrow : batchPixels (cur ++ [item]) ≤ maxP ∨
          ∃ c, cur ++ [item] = [c] ∧ c.pixel_count > maxP := by
        rcases not_and_or.mp h with hle | hemp
        · left
          simp only [batchPixels, List.map_append, List.sum_append,
            List.map_cons, List.map_nil, List.sum_cons, List.sum_nil]
          simp only [batchPixels] at hle
          omega
        · have hc : cur = [] := not_not.mp hemp
          subst hc
          by_cases hp : item.pixel_count ≤ maxP
          · left; simp [batchPixels, hp]
          · right; exact ⟨item, rfl, by omega⟩
      have := ih (cur ++ [item]) hgrow b
      simp only [batchPixels, List.map_append, List.sum_append, List.map_cons,
        List.map_nil, List.sum_cons, List.sum_nil, Nat.add_zero] at this
      simp only [batchPixels] at hb
      exact this hb

/-- C1: concatenating the batches returned by `_create_pixel_batches`, in
order, yields the input list exactly — no candidate dropped, duplicated or
reordered. -/
theorem create_pixel_batches_flatten (items : List DiffCandidate)
    (maxPixelsPerBatch : Nat) :
    (create_pixel_batches items maxPixelsPerBatch).flatten = items := by
  simpa using createPixelBatchesAux_flatten maxPixelsPerBatch items [] 0

/-- C3: every batch produced by `_create_pixel_batches` either fits in the
pixel budget or is a single over-budget candidate. -/
theorem create_pixel_batches_budget (items : List DiffCandidate)
    (maxPixelsPerBatch : Nat) (b : List DiffCandidate)
    (hb : b ∈ create_pixel_batches items maxPixelsPerBatch) :
    batchPixels b ≤ maxPixelsPerBatch ∨
      ∃ c, b = [c] ∧ c.pixel_count > maxPixelsPerBatch := by
  have h0 : batchPixels ([] : List DiffCandidate) ≤ maxPixelsPerBatch ∨
      ∃ c, ([] : List DiffCandidate) = [c] ∧ c.pixel_count > maxPixelsPerBatch := by
    left; simp [batchPixels]
  have := createPixelBatchesAux_budget maxPixelsPerBatch items [] h0 b
  simp only [batchPixels, List.map_nil, List.sum_nil] at this
  exact this hb

/-- Witness for C3 at a concrete input: a three-candidate list with budget 10
partitions into an in-budget batch and an over-budget singleton. -/
theorem create_pixel_batches_budget_witness :
    ([⟨"a", "h1", "b1", 4⟩] : List DiffCandidate) ∈
        create_pixel_batches
          [⟨"a", "h1", "b1", 4⟩, ⟨"big", "h2", "b2", 25⟩, ⟨"c", "h3", "b3", 6⟩] 10 ∧
      (batchPixels [⟨"a", "h1", "b1", 4⟩] ≤ 10 ∨
        ∃ c, ([⟨"a", "h1", "b1", 4⟩] : List DiffCandidate) = [c] ∧
          c.pixel_count > 10) :=
  ⟨by decide,
    create_pixel_batches_budget
      [⟨"a", "h1", "b1", 4⟩, ⟨"big", "h2", "b2", 25⟩, ⟨"c", "h3", "b3", 6⟩] 10
      [⟨"a", "h1", "b1", 4⟩] (by decide)⟩

/-! ## External diff engine adapter (`image_diff/odiff.py`)

Child-process I/O is abstracted as an explicit event record per `compare`
call: whether a spawn would succeed, the outcome of writing the request line,
and the outcome of reading the response line.  Python exceptions raised by
`OdiffServer.compare` become `Except.error` values. -/

/-- `OdiffResponse` pydantic model from `image_diff/types.py`.  The float
`diffPercentage` is modelled as a rational. -/
structure OdiffResponse where
  requestId : Nat
  exitCode : Int
  result : String
  diffCount : Option Nat := none
  diffPercentage : Option ℚ := none
  error : Option String := none
  deriving DecidableEq, Repr

/-- Outcome of `process.stdin.write` + `flush` for one request
(`odiff.py` lines 122-127). -/
inductive WriteEvent
  | ok
  | brokenPipe
  | osError
  deriving DecidableEq, Repr

/-- Outcome of the 30s `select` + `readline` + parse for one request
(`odiff.py` lines 129-138): `timeout` is the `select` timeout, `eof` an empty
line (server exited), `parseFailure` a line that fails JSON/schema parsing
(raises outside `RuntimeError`, so it does not kill the process), and `line`
a parsed response. -/
inductive ReadEvent
  | timeout
  | eof
  | parseFailure
  | line (resp : OdiffResponse)
  deriving DecidableEq, Repr

/-- The observable behaviour of the child process for one `compare` call. -/
structure EngineCall where
  spawnOk : Bool
  write : WriteEvent
  read : ReadEvent
  deriving DecidableEq, Repr

/-- Mutable state of `OdiffServer`: whether `self._process` is non-None and
the current `self._request_id`. -/
structure ServerState where
  processAlive : Bool
  requestId : Nat
  deriving DecidableEq, Repr

/-- Exceptions raised by `OdiffServer.compare` / `OdiffServer._start`. -/
inductive EngineError
  | startFailed
  | processDied
  | readTimeout
  | serverExited
  | parseFailed
  | responseError (msg : String)
  deriving DecidableEq, Repr

/-- `OdiffServer.compare` from `odiff.py` (lines 98-143): respawns the
process when the handle is None (spawn failure raises and leaves the handle
None); increments the request id; a broken pipe or OS error on write, the
30-second read timeout, and an empty/EOF response line each kill the process,
null the handle and raise; a parse failure raises without killing; a parsed
response with a non-empty `error` field raises without killing. -/
def odiffCompare (st : ServerState) (ev : EngineCall) :
    Except EngineError OdiffResponse × ServerState :=
  if st.processAlive = false ∧ ev.spawnOk = false then
    (.error .startFailed, st)
  else
    let st1 : ServerState := { processAlive := true, requestId := st.requestId + 1 }
    match ev.write with
    | .brokenPipe => (.error .processDied, { st1 with processAlive := false })
    | .osError => (.error .processDied, { st1 with processAlive := false })
    | .ok =>
      match ev.read with
      | .timeout => (.error .readTimeout, { st1 with processAlive := false })
      | .eof => (.error .serverExited, { st1 with processAlive := false })
      | .parseFailure => (.error .parseFailed, st1)
      | .line resp =>
        match resp.error with
        | some msg =>
          if msg = "" then (.ok resp, st1) else (.error (.responseError msg), st1)
        | none => (.ok resp, st1)

/-! ## Pairwise image comparator (`image_diff/compare.py`)

PIL images are abstracted to their dimensions plus, for the engine's diff
output, an alpha-channel function; masks keep an explicit pixel function.
PNG and base64 encoding are bijective transports and are modelled as the
identity: `DiffResult` carries the mask itself in place of its encoding. -/

/-- In-memory decoded image: only the dimensions are consumed by
`_compare_single_pair`. -/
structure DecodedImage where
  width : Nat
  height : Nat
  deriving DecidableEq, Repr

/-- The engine's diff output file, RGBA-converted: dimensions plus the alpha
channel read by `_mask_from_diff_output`. -/
structure RawImage where
  width : Nat
  height : Nat
  alpha : Nat → Nat → Nat

/-- A single-band (`"L"`) mask image. -/
structure Mask where
  width : Nat
  height : Nat
  pixel : Nat → Nat → Nat

/-- `Image.new("L", (w, h), 0)` from `compare.py` line 123: a fully-zero
mask. -/
def zeroMask (w h : Nat) : Mask :=
  { width := w, height := h, pixel := fun _ _ => 0 }

/-- `_mask_from_diff_output` from `compare.py`: threshold the alpha channel
of the diff output (alpha > 0 becomes 255, else 0). -/
def maskFromDiffOutput (raw : RawImage) : Mask :=
  { width := raw.width, height := raw.height,
    pixel := fun x y => if raw.alpha x y > 0 then 255 else 0 }

/-- `Image.resize((w, h), Image.NEAREST)` on a mask: nearest-neighbour
sampling of the source mask. -/
def resizeNearest (m : Mask) (w h : Nat) : Mask :=
  { width := w, height := h,
    pixel := fun x y => m.pixel (x * m.width / w) (y * m.height / h) }

/-- `DiffResult` from `image_diff/types.py`, with `diff_mask_png` replaced by
the mask it encodes (PNG/base64 encoding modelled as the identity) and the
float `diff_score` as a rational. -/
structure DiffResult where
  diff_mask : Mask
  diff_score : ℚ
  changed_pixels : Nat
  total_pixels : Nat
  aligned_height : Nat
  width : Nat
  before_width : Nat
  before_height : Nat
  after_width : Nat
  after_height : Nat

/-- The `bytes | Image.Image` union accepted by the comparator; raw byte
payloads are abstracted by an identifier fed to the decode oracle. -/
inductive ImageSource
  | raw (data : Nat)
  | image (img : DecodedImage)
  deriving DecidableEq, Repr

/-- The filesystem/engine environment one pair's comparison runs against:
the engine's behaviour for this pair's `compare` call and the content of the
pair's diff output file after that call (`none` means the file does not
exist). -/
structure PairWorld where
  engine : EngineCall
  outputFile : Option RawImage

/-- `_as_image` from `compare.py`: byte inputs go through the decode oracle
(`Image.open` + `load`, which may fail); already-decoded images pass
through. -/
def asImage (decode : Nat → Option DecodedImage) : ImageSource → Option DecodedImage
  | .raw b => decode b
  | .image img => some img

/-- `_compare_single_pair` from `compare.py` (lines 83-156): decode both
inputs, compute the aligned canvas, invoke the engine, then build the mask —
a synthesized zero mask when the engine reports zero changed pixels, else
the thresholded (and, if needed, nearest-neighbour resized) diff output,
whose absence is an error.  Any exception on the way (decode failure, engine
error, missing output file) is caught by the enclosing `except Exception`
and becomes `none` for this pair; the server state (including a killed
process) carries over. -/
def compareSinglePair (decode : Nat → Option DecodedImage) (world : PairWorld)
    (st : ServerState) (before after : ImageSource) :
    Option DiffResult × ServerState :=
  match asImage decode before with
  | none => (none, st)
  | some beforeImg =>
    match asImage decode after with
    | none => (none, st)
    | some afterImg =>
      let maxW := max beforeImg.width afterImg.width
      let maxH := max beforeImg.height afterImg.height
      match odiffCompare st world.engine with
      | (.error _, st1) => (none, st1)
      | (.ok resp, st1) =>
        let changedPixels := resp.diffCount.getD 0
        let diffPct := resp.diffPercentage.getD 0
        let totalPixels := maxW * maxH
        let diffScore := diffPct / 100
        if changedPixels = 0 then
          (some { diff_mask := zeroMask maxW maxH, diff_score := diffScore,
                  changed_pixels := changedPixels, total_pixels := totalPixels,
                  aligned_height := maxH, width := maxW,
                  before_width := beforeImg.width, before_height := beforeImg.height,
                  after_width := afterImg.width, after_height := afterImg.height }, st1)
        else
          match world.outputFile with
          | none => (none, st1)
          | some rawOut =>
            let mask0 := maskFromDiffOutput rawOut
            let mask :=
              if mask0.width = maxW ∧ mask0.height = maxH then mask0
              else resizeNearest mask0 maxW maxH
            (some { diff_mask := mask, diff_score := diffScore,
                    changed_pixels := changedPixels, total_pixels := totalPixels,
                    aligned_height := maxH, width := maxW,
                    before_width := beforeImg.width, before_height := beforeImg.height,
                    after_width := afterImg.width, after_height := afterImg.height }, st1)

/-- `_compare_pairs` from `compare.py` (lines 72-80): process the pairs in
order, threading the server state; `idx` numbers the pairs (it names the
per-pair temp files and selects each pair's world). -/
def comparePairsAux (decode : Nat → Option DecodedImage) (worlds : Nat → PairWorld) :
    Nat → ServerState → List (ImageSource × ImageSource) →
      List (Option DiffResult) × ServerState
  | _, st, [] => ([], st)
  | idx, st, p :: rest =>
    let step := compareSinglePair decode (worlds idx) st p.1 p.2
    let tail := comparePairsAux decode worlds (idx + 1) step.2 rest
    (step.1 :: tail.1, tail.2)

/-- `_compare_pairs` entry: pair indices start at 0. -/
def compare_pairs (decode : Nat → Option DecodedImage) (worlds : Nat → PairWorld)
    (st : ServerState) (pairs : List (ImageSource × ImageSource)) :
    List (Option DiffResult) × ServerState :=
  comparePairsAux decode worlds 0 st pairs

/-- `compare_images_batch` from `compare.py` (lines 60-69): with a provided
server, delegate to `_compare_pairs`; without one, enter a fresh
`OdiffServer` (whose startup may fail, propagating an exception out of the
entry point). -/
def compare_images_batch (decode : Nat → Option DecodedImage)
    (worlds : Nat → PairWorld) (server : Option ServerState)
    (enterSpawnOk : Bool) (pairs : List (ImageSource × ImageSource)) :
    Except EngineError (List (Option DiffResult) × ServerState) :=
  match server with
  | some st => .ok (compare_pairs decode worlds st pairs)
  | none =>
    if enterSpawnOk then
      .ok (compare_pairs decode worlds { processAlive := true, requestId := 0 } pairs)
    else
      .error .startFailed

lemma comparePairsAux_length (decode : Nat → Option DecodedImage)
    (worlds : Nat → PairWorld) :
    ∀ (pairs : List (ImageSource × ImageSource)) (idx : Nat) (st : ServerState),
      (comparePairsAux decode worlds idx st pairs).1.length = pairs.length := by
  intro pairs
  induction pairs with
  | nil => intro idx st; rfl
  | cons p rest ih =>
    intro idx st
    simp [comparePairsAux, ih]

lemma comparePairsAux_getElem (decode : Nat → Option DecodedImage)
    (worlds : Nat → PairWorld) :
    ∀ (pairs : List (ImageSource × ImageSource)) (idx : Nat) (st : ServerState)
      (i : Nat) (h : i < pairs.length),
      (comparePairsAux decode worlds idx st pairs).1[i]? =
        some (compareSinglePair decode (worlds (idx + i))
          (comparePairsAux decode worlds idx st (pairs.take i)).2
          (pairs.get ⟨i, h⟩).1 (pairs.get ⟨i, h⟩).2).1 := by
  intro pairs
  induction pairs with
  | nil => intro idx st i h; exact absurd h (by simp)
  | cons p rest ih =>
    intro idx st i h
    match i with
    | 0 => simp [comparePairsAux]
    | i + 1 =>
      have hrest : i < rest.length := by
        simpa using Nat.lt_of_succ_lt_succ h
      have := ih (idx + 1) (compareSinglePair decode (worlds idx) st p.1 p.2).2 i hrest
      simp only [comparePairsAux, List.getElem?_cons_succ, List.take_succ_cons,
        List.get_cons_succ]
      rw [this]
      ring_nf

/-- C4: `_compare_pairs` yields exactly one entry per input pair, in input
order; each entry is that pair's own `_compare_single_pair` outcome under
the server state threaded past the earlier pairs; and a decode failure on a
pair's own input makes that pair's result `none` while leaving the server
state untouched, so sibling pairs are still processed. -/
theorem compare_pairs_isolation (decode : Nat → Option DecodedImage)
    (worlds : Nat → PairWorld) (st : ServerState)
    (pairs : List (ImageSource × ImageSource)) :
    (compare_pairs decode worlds st pairs).1.length = pairs.length ∧
    (∀ (i : Nat) (h : i < pairs.length),
      (compare_pairs decode worlds st pairs).1[i]? =
        some (compareSinglePair decode (worlds i)
          (compare_pairs decode worlds st (pairs.take i)).2
          (pairs.get ⟨i, h⟩).1 (pairs.get ⟨i, h⟩).2).1) ∧
    (∀ (world : PairWorld) (st₀ : ServerState) (before after : ImageSource),
      asImage decode before = none →
      compareSinglePair decode world st₀ before after = (none, st₀)) := by
  refine ⟨comparePairsAux_length decode worlds pairs 0 st, ?_, ?_⟩
  · intro i h
    have := comparePairsAux_getElem decode worlds pairs 0 st i h
    simpa using this
  · intro world st₀ before after hdec
    simp [compareSinglePair, hdec]

/-- Witness for C4 at a concrete input: a two-pair batch where the first
pair's bytes fail to decode yields `none` for that pair only and a real
result for the second pair. -/
theorem compare_pairs_isolation_witness :
    (0 : Nat) < 2 ∧
      (compare_pairs (fun b => if b = 0 then none else some ⟨2, 3⟩)
          (fun _ => ⟨⟨true, .ok, .line ⟨1, 0, "same", some 0, some 0, none⟩⟩, none⟩)
          { processAlive := true, requestId := 0 }
          [(.raw 0, .raw 1), (.raw 1, .raw 1)]).1[0]? =
        some (compareSinglePair (fun b => if b = 0 then none else some ⟨2, 3⟩)
          (⟨⟨true, .ok, .line ⟨1, 0, "same", some 0, some 0, none⟩⟩, none⟩ : PairWorld)
          (compare_pairs (fun b => if b = 0 then none else some ⟨2, 3⟩)
            (fun _ => ⟨⟨true, .ok, .line ⟨1, 0, "same", some 0, some 0, none⟩⟩, none⟩)
            { processAlive := true, requestId := 0 }
            ([(.raw 0, .raw 1), (.raw 1, .raw 1)].take 0)).2
          (ImageSource.raw 0) (ImageSource.raw 1)).1 :=
  ⟨by decide,
    (compare_pairs_isolation (fun b => if b = 0 then none else some ⟨2, 3⟩)
      (fun _ => ⟨⟨true, .ok, .line ⟨1, 0, "same", some 0, some 0, none⟩⟩, none⟩)
      { processAlive := true, requestId := 0 }
      [(.raw 0, .raw 1), (.raw 1, .raw 1)]).2.1 0 (by decide)⟩

/-- C5 counterexample: a broken pipe while writing the request for a pair —
a process-level engine failure — does NOT surface as an exception from the
`compare_images_batch` entry point; the call returns normally with that
pair's result converted to `none` (the per-pair `except Exception` handler
in `_compare_single_pair` swallows the `RuntimeError`), though the process
handle is indeed killed and nulled (`processAlive = false`). -/
theorem compare_batch_fatal_error_not_raised :
    compare_images_batch (fun _ => some ⟨1, 1⟩)
        (fun _ => ⟨⟨true, .brokenPipe, .eof⟩, none⟩)
        (some { processAlive := true, requestId := 0 }) true
        [(.raw 0, .raw 0)] =
      .ok ([none], { processAlive := false, requestId := 1 }) := by
  rfl

/-- C5 amended: each process-level failure (broken pipe or OS error on
write, the 30s read timeout, an empty/EOF response line) kills and nulls
the child process handle — `OdiffServer.compare` raises and leaves
`processAlive = false`, so the next `compare` call must respawn — but inside
`compare`/`compare_batch` the per-pair handler catches that exception and
records `none` for the failing pair instead of re-raising. -/
theorem fatal_engine_error_kills_and_yields_null
    (st : ServerState) (ev : EngineCall)
    (hspawn : st.processAlive = true ∨ ev.spawnOk = true)
    (hfatal : ev.write = .brokenPipe ∨ ev.write = .osError ∨
      (ev.write = .ok ∧ (ev.read = .timeout ∨ ev.read = .eof))) :
    (∃ e, (odiffCompare st ev).1 = .error e) ∧
    (odiffCompare st ev).2.processAlive = false ∧
    ∀ (decode : Nat → Option DecodedImage) (world : PairWorld)
      (before after : ImageSource) (bi ai : DecodedImage),
      asImage decode before = some bi → asImage decode after = some ai →
      world.engine = ev →
      (compareSinglePair decode world st before after).1 = none ∧
      (compareSinglePair decode world st before after).2.processAlive = false := by
  have hnostart : ¬(st.processAlive = false ∧ ev.spawnOk = false) := by
    rcases hspawn with h | h <;> simp [h]
  have hres : (∃ e, (odiffCompare st ev).1 = .error e) ∧
      (odiffCompare st ev).2.processAlive = false := by
    rcases hfatal with hw | hw | ⟨hw, hr⟩
    · simp [odiffCompare, hnostart, hw]
    · simp [odiffCompare, hnostart, hw]
    · rcases hr with hr | hr <;> simp [odiffCompare, hnostart, hw, hr]
  refine ⟨hres.1, hres.2, ?_⟩
  intro decode world before after bi ai hb ha hev
  obtain ⟨e, he⟩ := hres.1
  obtain ⟨st1, hst1⟩ : ∃ st1, odiffCompare st world.engine = (.error e, st1) := by
    refine ⟨(odiffCompare st ev).2, ?_⟩
    rw [hev, ← he]
  constructor
  · simp [compareSinglePair, hb, ha, hst1]
  · have h2 : (compareSinglePair decode world st before after).2 =
        (odiffCompare st ev).2 := by
      simp [compareSinglePair, hb, ha, hst1, hev] at hst1 ⊢
      rw [hst1]
    rw [h2]; exact hres.2

/-- Witness for the amended C5 theorem: a concrete read timeout with a live
process. -/
theorem fatal_engine_error_kills_and_yields_null_witness :
    ((⟨true, 0⟩ : ServerState).processAlive = true ∨
        (⟨true, .ok, .timeout⟩ : EngineCall).spawnOk = true) ∧
      ((∃ e, (odiffCompare ⟨true, 0⟩ ⟨true, .ok, .timeout⟩).1 = .error e) ∧
        (odiffCompare ⟨true, 0⟩ ⟨true, .ok, .timeout⟩).2.processAlive = false ∧
        ∀ (decode : Nat → Option DecodedImage) (world : PairWorld)
          (before after : ImageSource) (bi ai : DecodedImage),
          asImage decode before = some bi → asImage decode after = some ai →
          world.engine = ⟨true, .ok, .timeout⟩ →
          (compareSinglePair decode world ⟨true, 0⟩ before after).1 = none ∧
          (compareSinglePair decode world ⟨true, 0⟩ before after).2.processAlive
            = false) :=
  ⟨Or.inl rfl,
    fatal_engine_error_kills_and_yields_null ⟨true, 0⟩ ⟨true, .ok, .timeout⟩
      (Or.inl rfl) (Or.inr (Or.inr ⟨rfl, Or.inl rfl⟩))⟩

/-- C6: when the engine reports zero changed pixels the comparator returns a
`DiffResult` whose mask is the synthesized fully-zero mask at the aligned
canvas size, whatever the output file oracle says (in particular when no
output file exists); and when the engine reports changed pixels but the
output file does not exist, the pair produces no `DiffResult`. -/
theorem zero_diff_synthesized_mask (decode : Nat → Option DecodedImage)
    (world : PairWorld) (st st1 : ServerState) (before after : ImageSource)
    (bi ai : DecodedImage) (resp : OdiffResponse)
    (hb : asImage decode before = some bi) (ha : asImage decode after = some ai)
    (heng : odiffCompare st world.engine = (.ok resp, st1)) :
    (resp.diffCount.getD 0 = 0 →
      ∃ r, compareSinglePair decode world st before after = (some r, st1) ∧
        r.diff_mask = zeroMask (max bi.width ai.width) (max bi.height ai.height) ∧
        r.diff_mask.width = max bi.width ai.width ∧
        r.diff_mask.height = max bi.height ai.height ∧
        (∀ x y, r.diff_mask.pixel x y = 0) ∧
        r.changed_pixels = 0) ∧
    (resp.diffCount.getD 0 > 0 → world.outputFile = none →
      compareSinglePair decode world st before after = (none, st1)) := by
  constructor
  · intro hzero
    have hres : compareSinglePair decode world st before after =
        (some { diff_mask := zeroMask (max bi.width ai.width) (max bi.height ai.height),
                diff_score := resp.diffPercentage.getD 0 / 100,
                changed_pixels := resp.diffCount.getD 0,
                total_pixels := max bi.width ai.width * (max bi.height ai.height),
                aligned_height := max bi.height ai.height,
                width := max bi.width ai.width,
                before_width := bi.width, before_height := bi.height,
                after_width := ai.width, after_height := ai.height }, st1) := by
      simp [compareSinglePair, hb, ha, heng, hzero]
    exact ⟨_, hres, rfl, rfl, rfl, fun x y => rfl, hzero⟩
  · intro hpos hout
    have hne : resp.diffCount.getD 0 ≠ 0 := Nat.pos_iff_ne_zero.mp hpos
    simp [compareSinglePair, hb, ha, heng, hne, hout]

/-- Witness for C6 at a concrete input: engine reports zero changed pixels
and no output file exists; a fully-zero 4×5 mask result is produced. -/
theorem zero_diff_synthesized_mask_witness :
    (asImage (fun _ => some ⟨4, 5⟩) (.raw 0) = some ⟨4, 5⟩) ∧
      (odiffCompare ⟨true, 0⟩ ⟨true, .ok, .line ⟨1, 0, "same", some 0, some 0, none⟩⟩
          = (.ok ⟨1, 0, "same", some 0, some 0, none⟩, ⟨true, 1⟩)) ∧
      (((⟨1, 0, "same", some 0, some 0, none⟩ : OdiffResponse).diffCount.getD 0 = 0 →
        ∃ r, compareSinglePair (fun _ => some ⟨4, 5⟩)
            ⟨⟨true, .ok, .line ⟨1, 0, "same", some 0, some 0, none⟩⟩, none⟩
            ⟨true, 0⟩ (.raw 0) (.raw 0) = (some r, ⟨true, 1⟩) ∧
          r.diff_mask = zeroMask (max 4 4) (max 5 5) ∧
          r.diff_mask.width = max 4 4 ∧
          r.diff_mask.height = max 5 5 ∧
          (∀ x y, r.diff_mask.pixel x y = 0) ∧
          r.changed_pixels = 0) ∧
      (((⟨1, 0, "same", some 0, some 0, none⟩ : OdiffResponse).diffCount.getD 0 > 0 →
        (⟨⟨true, .ok, .line ⟨1, 0, "same", some 0, some 0, none⟩⟩, none⟩ :
            PairWorld).outputFile = none →
        compareSinglePair (fun _ => some ⟨4, 5⟩)
          ⟨⟨true, .ok, .line ⟨1, 0, "same", some 0, some 0, none⟩⟩, none⟩
          ⟨true, 0⟩ (.raw 0) (.raw 0) = (none, ⟨true, 1⟩)))) :=
  ⟨rfl, rfl,
    zero_diff_synthesized_mask (fun _ => some ⟨4, 5⟩)
      ⟨⟨true, .ok, .line ⟨1, 0, "same", some 0, some 0, none⟩⟩, none⟩
      ⟨true, 0⟩ ⟨true, 1⟩ (.raw 0) (.raw 0) ⟨4, 5⟩ ⟨4, 5⟩
      ⟨1, 0, "same", some 0, some 0, none⟩ rfl rfl rfl⟩

/-! ## Comparison orchestrator (`tasks.py`, `compare_snapshots`)

Django ORM rows, the blob store and the batch comparator are abstracted as
explicit oracles in an environment record; Python exceptions that escape to
the outer `except BaseException` handler become the `raised` outcome. -/

/-- Python `dict` as an insertion-ordered association list: inserting an
existing key overwrites in place, a new key goes to the end. -/
def dictInsert {α : Type} (m : List (String × α)) (k : String) (v : α) :
    List (String × α) :=
  if (m.map Prod.fst).contains k then
    m.map (fun p => if p.1 = k then (k, v) else p)
  else
    m ++ [(k, v)]

/-- Python `dict` lookup returning `None` when the key is absent. -/
def dictGet {α : Type} (m : List (String × α)) (k : String) : Option α :=
  (m.find? (fun p => p.1 = k)).map Prod.snd

/-- `ImageMetadata` pydantic model from `manifest.py`. -/
structure ImageMetadata where
  display_name : Option String := none
  image_file_name : String
  width : Nat
  height : Nat
  deriving DecidableEq, Repr

/-- `SnapshotManifest` from `manifest.py`: content hash to metadata, as an
insertion-ordered dict. -/
structure SnapshotManifest where
  images : List (String × ImageMetadata)
  deriving DecidableEq, Repr

/-- The dict comprehension `{meta.image_file_name: h for h, meta in
images.items()}` from `tasks.py` lines 208-209 (last write wins on a
repeated file name). -/
def buildByName (images : List (String × ImageMetadata)) : List (String × String) :=
  images.foldl (fun acc p => dictInsert acc p.2.image_file_name p.1) []

/-- Modelled from the spec (§3, §4.5): the comparison record's state enum
`PreprodSnapshotComparison.State`; the `models.py` defining it is not part
of the sources, only its use in `tasks.py` is. -/
inductive CompState
  | pending
  | processing
  | success
  | failed
  deriving DecidableEq, Repr

/-- Modelled from the spec (§4.5, §7): the record's error-code enum; only
the internal-error code is used by the orchestrator. -/
inductive CompErrorCode
  | internalError
  deriving DecidableEq, Repr

/-- Modelled from the spec (§6): the queryable comparison record with its
state, error code, aggregate counts and the `extras` entry holding the
result manifest's storage key. -/
structure CompRecord where
  state : CompState
  error_code : Option CompErrorCode := none
  images_changed : Nat := 0
  images_unchanged : Nat := 0
  images_added : Nat := 0
  images_removed : Nat := 0
  extras_comparison_key : Option String := none
  deriving DecidableEq, Repr

/-- Outcome of the `get_or_create` call (with the `IntegrityError` race
branch) in `tasks.py` lines 115-135. -/
inductive GoCResult
  | created
  | found (rec : CompRecord)
  | integrityThenFound (rec : CompRecord)
  | integrityThenMissing
  deriving DecidableEq, Repr

/-- Result of the record-acquisition stage (`tasks.py` lines 114-164). -/
inductive AcquireResult
  | notFound
  | skip (rec : CompRecord)
  | proceed (rec : CompRecord)
  deriving DecidableEq, Repr

/-- The get-or-create plus conditional-update stage of `compare_snapshots`
(`tasks.py` lines 114-164): a freshly created record starts in `PROCESSING`;
an existing record is CAS-updated from `{PENDING, FAILED}` to `PROCESSING`,
and any other state aborts quietly leaving the record untouched. -/
def acquireComparison (goc : GoCResult) : AcquireResult :=
  match goc with
  | .created => .proceed { state := .processing }
  | .integrityThenMissing => .notFound
  | .found rec =>
    if rec.state = .pending ∨ rec.state = .failed then
      .proceed { rec with state := .processing }
    else
      .skip rec
  | .integrityThenFound rec =>
    if rec.state = .pending ∨ rec.state = .failed then
      .proceed { rec with state := .processing }
    else
      .skip rec

/-- One value of the per-image dict written into `image_results` by
`compare_snapshots`; the keys actually written by each branch of `tasks.py`
appear as `some`, all others stay `none`. -/
structure ImageResultEntry where
  status : String
  head_hash : Option String := none
  base_hash : Option String := none
  reason : Option String := none
  diff_score : Option ℚ := none
  changed_pixels : Option Nat := none
  total_pixels : Option Nat := none
  diff_mask_key : Option String := none
  diff_mask_image_id : Option String := none
  before_width : Option Nat := none
  before_height : Option Nat := none
  after_width : Option Nat := none
  after_height : Option Nat := none
  aligned_height : Option Nat := none
  width : Option Nat := none

/-- `_image_name_to_path_stem` from `tasks.py` lines 36-38: normalize
backslashes, strip surrounding slashes, drop the final extension. -/
def imageNameToPathStem (name : String) : String :=
  let normalized := (name.replace "\\" "/").toList
  let stripped := ((normalized.dropWhile (fun c => c = '/')).reverse.dropWhile
    (fun c => c = '/')).reverse
  let stem :=
    if stripped.contains '.' then
      ((stripped.reverse.dropWhile (fun c => c ≠ '.')).tail).reverse
    else stripped
  String.mk stem

/-- Running state of the matched-name classification loop
(`tasks.py` lines 215-263). -/
structure ClassifyState where
  results : List (String × ImageResultEntry)
  unchanged : Nat
  errors : Nat
  eligible : List DiffCandidate

/-- The `unchanged` entry written at `tasks.py` lines 230-234. -/
def unchangedHashEntry (headHash baseHash : String) : ImageResultEntry :=
  { status := "unchanged", head_hash := some headHash, base_hash := some baseHash }

/-- The oversized `errored` entry written at `tasks.py` lines 255-260. -/
def pixelLimitEntry (headHash baseHash : String) : ImageResultEntry :=
  { status := "errored", head_hash := some headHash, base_hash := some baseHash,
    reason := some "exceeds_pixel_limit" }

/-- The classification loop over `sorted(matched)` (`tasks.py` lines
224-263): identical hashes are `unchanged` with no pixel work; differing
hashes over the 40,000,000-pixel ceiling are `errored` with reason
`exceeds_pixel_limit` and never become candidates; everything else becomes a
`_DiffCandidate`.  A failed dict lookup is a `KeyError` escaping to the
outer handler (`Except.error`); it cannot occur for names drawn from the
dicts themselves. -/
def classifyMatched (headByName baseByName : List (String × String))
    (headImages baseImages : List (String × ImageMetadata)) :
    List String → ClassifyState → Except Unit ClassifyState
  | [], st => .ok st
  | name :: rest, st =>
    match dictGet headByName name, dictGet baseByName name with
    | some headHash, some baseHash =>
      if headHash = baseHash then
        classifyMatched headByName baseByName headImages baseImages rest
          { st with
            results := st.results ++ [(name, unchangedHashEntry headHash baseHash)],
            unchanged := st.unchanged + 1 }
      else
        match dictGet headImages headHash, dictGet baseImages baseHash with
        | some headMeta, some baseMeta =>
          let pixelCount := max (headMeta.width * headMeta.height)
            (baseMeta.width * baseMeta.height)
          if pixelCount > MAX_DIFF_PIXELS then
            classifyMatched headByName baseByName headImages baseImages rest
              { st with
                results := st.results ++ [(name, pixelLimitEntry headHash baseHash)],
                errors := st.errors + 1 }
          else
            classifyMatched headByName baseByName headImages baseImages rest
              { st with
                eligible := st.eligible ++ [⟨name, headHash, baseHash, pixelCount⟩] }
        | _, _ => .error ()
    | _, _ => .error ()

/-- The `errored`/`image_fetch_failed` entry written at `tasks.py` lines
314-319. -/
def fetchFailedEntry (headHash baseHash : String) : ImageResultEntry :=
  { status := "errored", head_hash := some headHash, base_hash := some baseHash,
    reason := some "image_fetch_failed" }

/-- The `errored`/`image_processing_failed` entry written at `tasks.py`
lines 342-347. -/
def processingFailedEntry (headHash baseHash : String) : ImageResultEntry :=
  { status := "errored", head_hash := some headHash, base_hash := some baseHash,
    reason := some "image_processing_failed" }

/-- Running state of the batch-processing loop (`tasks.py` lines 289-391),
extending the classification tallies with the changed count, the blob keys
written so far and the number of `compare_images_batch` invocations. -/
structure BatchLoopState where
  results : List (String × ImageResultEntry)
  changed : Nat
  unchanged : Nat
  errors : Nat
  puts : List String
  comparatorCalls : Nat

/-- The state update for a failed image fetch inside the batch loop
(`tasks.py` lines 313-319). -/
def fetchFailedState (st : BatchLoopState) (c : DiffCandidate) : BatchLoopState :=
  { st with errors := st.errors + 1,
            results := st.results ++
              [(c.name, fetchFailedEntry c.head_hash c.base_hash)] }

/-- The per-batch fetch loop (`tasks.py` lines 295-323): head bytes are
fetched before base bytes, a failure of either records an
`image_fetch_failed` entry, a success appends `(base_data, head_data)` to
the pending pairs together with the candidate's name and hashes. -/
def fetchCandidates (fetch : String → Option Nat) (keyPrefix : String) :
    List DiffCandidate → BatchLoopState →
      BatchLoopState × List (Nat × Nat) × List String × List (String × String)
  | [], st => (st, [], [], [])
  | c :: rest, st =>
    match fetch (keyPrefix ++ "/" ++ c.head_hash) with
    | none => fetchCandidates fetch keyPrefix rest (fetchFailedState st c)
    | some headData =>
      match fetch (keyPrefix ++ "/" ++ c.base_hash) with
      | none => fetchCandidates fetch keyPrefix rest (fetchFailedState st c)
      | some baseData =>
        let tail := fetchCandidates fetch keyPrefix rest st
        (tail.1, (baseData, headData) :: tail.2.1, c.name :: tail.2.2.1,
          (c.head_hash, c.base_hash) :: tail.2.2.2)

/-- The `changed`/`unchanged` entry with full diff fields written at
`tasks.py` lines 376-391. -/
def diffResultEntry (headHash baseHash : String) (r : DiffResult)
    (maskKey maskImageId : String) : ImageResultEntry :=
  { status := if r.changed_pixels > 0 then "changed" else "unchanged",
    head_hash := some headHash, base_hash := some baseHash,
    diff_score := some r.diff_score, changed_pixels := some r.changed_pixels,
    total_pixels := some r.total_pixels, diff_mask_key := some maskKey,
    diff_mask_image_id := some maskImageId,
    before_width := some r.before_width, before_height := some r.before_height,
    after_width := some r.after_width, after_height := some r.after_height,
    aligned_height := some r.aligned_height, width := some r.width }

/-- The result-consumption loop (`tasks.py` lines 337-391): names, hashes and
diff results are zipped strictly — a length mismatch raises (`Bool` flag
`true`), after the common prefix was already processed; a `none` result
records `image_processing_failed`; a real result uploads the mask and records
a `changed` or `unchanged` entry with the diff fields. -/
def processResults (keyPrefix : String) (headArtifactId baseArtifactId : Nat) :
    List String → List (String × String) → List (Option DiffResult) →
      BatchLoopState → BatchLoopState × Bool
  | [], [], [], st => (st, false)
  | name :: ns, hp :: hs, res :: rs, st =>
    match res with
    | none =>
      processResults keyPrefix headArtifactId baseArtifactId ns hs rs
        { st with errors := st.errors + 1,
                  results := st.results ++
                    [(name, processingFailedEntry hp.1 hp.2)] }
    | some r =>
      let stem := imageNameToPathStem name
      let maskKey := keyPrefix ++ "/" ++ toString headArtifactId ++ "/" ++
        toString baseArtifactId ++ "/diff/" ++ stem ++ ".png"
      let maskImageId := toString headArtifactId ++ "/" ++
        toString baseArtifactId ++ "/diff/" ++ stem ++ ".png"
      let st1 :=
        if r.changed_pixels > 0 then
          { st with changed := st.changed + 1, puts := st.puts ++ [maskKey],
                    results := st.results ++
                      [(name, diffResultEntry hp.1 hp.2 r maskKey maskImageId)] }
        else
          { st with unchanged := st.unchanged + 1, puts := st.puts ++ [maskKey],
                    results := st.results ++
                      [(name, diffResultEntry hp.1 hp.2 r maskKey maskImageId)] }
      processResults keyPrefix headArtifactId baseArtifactId ns hs rs st1
  | _, _, _, st => (st, true)

/-- The loop over pixel batches (`tasks.py` lines 290-391): fetch each
batch's images, invoke the batch comparator once per batch, then consume the
results; a strict-zip mismatch aborts the run with the partial state. -/
def runBatches (fetch : String → Option Nat)
    (comparator : List (Nat × Nat) → List (Option DiffResult))
    (keyPrefix : String) (headArtifactId baseArtifactId : Nat) :
    List (List DiffCandidate) → BatchLoopState → BatchLoopState × Bool
  | [], st => (st, false)
  | batch :: rest, st =>
    let fetched := fetchCandidates fetch keyPrefix batch st
    let diffResults := comparator fetched.2.1
    let st1 := { fetched.1 with comparatorCalls := fetched.1.comparatorCalls + 1 }
    let processed := processResults keyPrefix headArtifactId baseArtifactId
      fetched.2.2.1 fetched.2.2.2 diffResults st1
    if processed.2 then (processed.1, true)
    else
      runBatches fetch comparator keyPrefix headArtifactId baseArtifactId rest
        processed.1

/-- The `added` loop (`tasks.py` lines 393-394). -/
def addAddedEntries (headByName : List (String × String)) :
    List String → List (String × ImageResultEntry) →
      Except Unit (List (String × ImageResultEntry))
  | [], results => .ok results
  | name :: rest, results =>
    match dictGet headByName name with
    | some h =>
      addAddedEntries headByName rest
        (results ++ [(name, { status := "added", head_hash := some h })])
    | none => .error ()

/-- The `removed` loop (`tasks.py` lines 396-404). -/
def addRemovedEntries (baseByName : List (String × String))
    (baseImages : List (String × ImageMetadata)) :
    List String → List (String × ImageResultEntry) →
      Except Unit (List (String × ImageResultEntry))
  | [], results => .ok results
  | name :: rest, results =>
    match dictGet baseByName name with
    | some baseHash =>
      match dictGet baseImages baseHash with
      | some baseMeta =>
        let entry : ImageResultEntry :=
          { status := "removed", base_hash := some baseHash,
            before_width := some baseMeta.width,
            before_height := some baseMeta.height }
        addRemovedEntries baseByName baseImages rest (results ++ [(name, entry)])
      | none => .error ()
    | none => .error ()

/-- `ComparisonSummary` from `manifest.py` / the summary dict built at
`tasks.py` lines 409-416. -/
structure ComparisonSummary where
  total : Nat
  changed : Nat
  unchanged : Nat
  added : Nat
  removed : Nat
  errored : Nat

/-- The comparison-manifest document built at `tasks.py` lines 406-418. -/
structure ComparisonManifestData where
  head_artifact_id : Nat
  base_artifact_id : Nat
  summary : ComparisonSummary
  images : List (String × ImageResultEntry)

/-- Ascending lexicographic sort of a list of names: Python `sorted`. -/
def sortedNames (names : List String) : List String :=
  names.mergeSort (fun a b => decide (a ≤ b))

/-- Result of the body of the outer `try` in `compare_snapshots`
(`tasks.py` lines 166-463): `manifestFailure` is the quiet `FAILED` return
of the inner manifest handler; `raised` is any exception escaping to the
outer `except BaseException` handler (carrying the blob keys already written
and the comparator calls already made); `done` is the successful completion
with the written manifest, its storage key, all written blob keys and the
comparator call count. -/
inductive BodyResult
  | manifestFailure
  | raised (puts : List String) (comparatorCalls : Nat)
  | done (manifest : ComparisonManifestData) (comparisonKey : String)
      (puts : List String) (comparatorCalls : Nat)

/-- Environment of one `compare_snapshots` run: the outcomes of the external
collaborators (ORM lookups, get-or-create, metrics extras, blob store reads,
engine startup, and the §4.2 batch comparator abstracted as one oracle
returning a per-pair optional result list). -/
structure OrchEnv where
  artifactsFound : Bool
  metricsFound : Bool
  getOrCreate : GoCResult
  headManifestKey : Option String
  baseManifestKey : Option String
  loadManifest : String → Except Unit SnapshotManifest
  serverStartOk : Bool
  fetch : String → Option Nat
  comparator : List (Nat × Nat) → List (Option DiffResult)

/-- The key set of a manifest's name-to-hash dict (`tasks.py` lines
208-209). -/
def manifestNames (man : SnapshotManifest) : List String :=
  (buildByName man.images).map Prod.fst

/-- `matched = head_names & base_names` (`tasks.py` line 211). -/
def matchedNames (hman bman : SnapshotManifest) : List String :=
  (manifestNames hman).filter (fun n => (manifestNames bman).contains n)

/-- `added = head_names - base_names` (`tasks.py` line 212). -/
def addedNames (hman bman : SnapshotManifest) : List String :=
  (manifestNames hman).filter (fun n => ¬(manifestNames bman).contains n)

/-- `removed = base_names - head_names` (`tasks.py` line 213). -/
def removedNames (hman bman : SnapshotManifest) : List String :=
  (manifestNames bman).filter (fun n => ¬(manifestNames hman).contains n)

/-- The manifest-driven core of the run (`tasks.py` lines 205-427): build
the name maps, split names into matched/added/removed, classify matched
names, batch and compare the eligible candidates, append added/removed
entries, then assemble and store the comparison manifest. -/
def processManifests (env : OrchEnv) (orgId projectId : Nat)
    (headArtifactId baseArtifactId : Nat)
    (headManifest baseManifest : SnapshotManifest) : BodyResult :=
  let headImages := headManifest.images
  let baseImages := baseManifest.images
  let headByName := buildByName headImages
  let baseByName := buildByName baseImages
  let matched := matchedNames headManifest baseManifest
  let added := addedNames headManifest baseManifest
  let removed := removedNames headManifest baseManifest
  let imageKeyPrefix := toString orgId ++ "/" ++ toString projectId
  match classifyMatched headByName baseByName headImages baseImages
      (sortedNames matched) ⟨[], 0, 0, []⟩ with
  | .error _ => .raised [] 0
  | .ok cls =>
    if env.serverStartOk = false then .raised [] 0
    else
      let batches := create_pixel_batches cls.eligible MAX_PIXELS_PER_BATCH
      let looped := runBatches env.fetch env.comparator imageKeyPrefix
        headArtifactId baseArtifactId batches
        ⟨cls.results, 0, cls.unchanged, cls.errors, [], 0⟩
      if looped.2 then .raised looped.1.puts looped.1.comparatorCalls
      else
        let st := looped.1
        match addAddedEntries headByName (sortedNames added) st.results with
        | .error _ => .raised st.puts st.comparatorCalls
        | .ok withAdded =>
          match addRemovedEntries baseByName baseImages (sortedNames removed)
              withAdded with
          | .error _ => .raised st.puts st.comparatorCalls
          | .ok allResults =>
            let summary : ComparisonSummary :=
              { total := matched.length + added.length + removed.length,
                changed := st.changed, unchanged := st.unchanged,
                added := added.length, removed := removed.length,
                errored := st.errors }
            let manifest : ComparisonManifestData :=
              { head_artifact_id := headArtifactId,
                base_artifact_id := baseArtifactId,
                summary := summary, images := allResults }
            let comparisonKey := toString orgId ++ "/" ++ toString projectId ++
              "/" ++ toString headArtifactId ++ "/" ++ toString baseArtifactId ++
              "/comparison.json"
            .done manifest comparisonKey (st.puts ++ [comparisonKey])
              st.comparatorCalls

/-- A manifest key read from the metrics row's extras is usable only when it
is present and non-empty: `if not head_manifest_key or not base_manifest_key`
(`tasks.py` line 182) treats `None` and `""` alike. -/
def usableKey : Option String → Option String
  | none => none
  | some s => if s = "" then none else some s

/-- The body of the outer `try` (`tasks.py` lines 166-463): a missing or
empty manifest key raises `ValueError` (outside the inner handler!); a
storage/JSON/schema failure while loading either manifest is caught by the
inner handler and becomes the quiet `FAILED` return; otherwise the
manifest-driven core runs. -/
def runBody (env : OrchEnv) (orgId projectId : Nat)
    (headArtifactId baseArtifactId : Nat) : BodyResult :=
  match usableKey env.headManifestKey, usableKey env.baseManifestKey with
  | some headKey, some baseKey =>
    match env.loadManifest headKey with
    | .error _ => .manifestFailure
    | .ok headManifest =>
      match env.loadManifest baseKey with
      | .error _ => .manifestFailure
      | .ok baseManifest =>
        processManifests env orgId projectId headArtifactId baseArtifactId
          headManifest baseManifest
  | _, _ => .raised [] 0

/-- Final observable outcome of one `compare_snapshots` invocation. -/
inductive RunOutcome
  | artifactNotFound
  | metricsNotFound
  | comparisonNotFound
  | skippedNotRetryable
  | manifestLoadFailed
  | completed (manifest : ComparisonManifestData)
  | raised

/-- Observable result of one `compare_snapshots` invocation: the outcome,
the comparison record as left in the database, the blob keys written and the
number of comparator invocations. -/
structure RunResult where
  outcome : RunOutcome
  record : Option CompRecord
  puts : List String
  comparatorCalls : Nat

/-- `compare_snapshots` from `tasks.py` (lines 69-483): artifact and metrics
lookups, record acquisition with the at-most-one-run CAS, then the body;
the quiet manifest-load failure and any raised exception both leave the
record `FAILED` with the internal-error code, while success records the
aggregate counts and the manifest key. -/
def compare_snapshots (env : OrchEnv) (orgId projectId : Nat)
    (headArtifactId baseArtifactId : Nat) : RunResult :=
  if env.artifactsFound = false then
    { outcome := .artifactNotFound, record := none, puts := [], comparatorCalls := 0 }
  else if env.metricsFound = false then
    { outcome := .metricsNotFound, record := none, puts := [], comparatorCalls := 0 }
  else
    match acquireComparison env.getOrCreate with
    | .notFound =>
      { outcome := .comparisonNotFound, record := none, puts := [],
        comparatorCalls := 0 }
    | .skip rec =>
      { outcome := .skippedNotRetryable, record := some rec, puts := [],
        comparatorCalls := 0 }
    | .proceed rec =>
      let failedRec : CompRecord :=
        { rec with state := .failed, error_code := some .internalError }
      match runBody env orgId projectId headArtifactId baseArtifactId with
      | .manifestFailure =>
        { outcome := .manifestLoadFailed, record := some failedRec,
          puts := [], comparatorCalls := 0 }
      | .raised puts calls =>
        { outcome := .raised, record := some failedRec,
          puts := puts, comparatorCalls := calls }
      | .done manifest comparisonKey puts calls =>
        let successRec : CompRecord :=
          { state := .success, error_code := none,
            images_changed := manifest.summary.changed,
            images_unchanged := manifest.summary.unchanged,
            images_added := manifest.summary.added,
            images_removed := manifest.summary.removed,
            extras_comparison_key := some comparisonKey }
        { outcome := .completed manifest, record := some successRec,
          puts := puts, comparatorCalls := calls }

/-- C2: with both artifacts and metrics present and an existing comparison
record for the pair, a `PENDING` or `FAILED` record is CAS-transitioned to
`PROCESSING` and the run proceeds (it never takes the quiet-skip branch),
while a `PROCESSING` or `SUCCESS` record makes the run return quietly with
the record untouched, nothing written to blob storage and the comparator
never invoked — at most one active run per (head, base) pair. -/
theorem compare_snapshots_cas (env : OrchEnv)
    (orgId projectId headArtifactId baseArtifactId : Nat) (rec : CompRecord)
    (hart : env.artifactsFound = true) (hmet : env.metricsFound = true)
    (hgoc : env.getOrCreate = .found rec) :
    ((rec.state = .pending ∨ rec.state = .failed) →
      acquireComparison env.getOrCreate = .proceed { rec with state := .processing } ∧
      (compare_snapshots env orgId projectId headArtifactId
        baseArtifactId).outcome ≠ RunOutcome.skippedNotRetryable) ∧
    ((rec.state = .processing ∨ rec.state = .success) →
      compare_snapshots env orgId projectId headArtifactId baseArtifactId =
        { outcome := .skippedNotRetryable, record := some rec, puts := [],
          comparatorCalls := 0 }) := by
  constructor
  · intro hretry
    have hacq : acquireComparison env.getOrCreate =
        .proceed { rec with state := .processing } := by
      simp [acquireComparison, hgoc, hretry]
    refine ⟨hacq, ?_⟩
    simp only [compare_snapshots, hart, hmet, hacq]
    rcases hb : runBody env orgId projectId headArtifactId baseArtifactId with
      _ | ⟨p, c⟩ | ⟨m, k, p, c⟩ <;> simp
  · intro hdone
    have hacq : acquireComparison env.getOrCreate = .skip rec := by
      rcases hdone with h | h <;> simp [acquireComparison, hgoc, h]
    simp [compare_snapshots, hart, hmet, hacq]

/-- Concrete environment for the C2 witness: an existing record already in
`PROCESSING`. -/
def casEnv : OrchEnv :=
  { artifactsFound := true, metricsFound := true,
    getOrCreate := .found { state := .processing },
    headManifestKey := some "hm.json", baseManifestKey := some "bm.json",
    loadManifest := fun _ => .ok ⟨[]⟩, serverStartOk := true,
    fetch := fun _ => none, comparator := fun _ => [] }

/-- Witness for C2 at a concrete input: a pre-seeded `PROCESSING` record
makes the run a quiet no-op. -/
theorem compare_snapshots_cas_witness :
    compare_snapshots casEnv 1 2 3 4 =
      { outcome := .skippedNotRetryable,
        record := some { state := .processing }, puts := [],
        comparatorCalls := 0 } :=
  (compare_snapshots_cas casEnv 1 2 3 4 { state := .processing }
    rfl rfl rfl).2 (Or.inl rfl)

/-- Concrete environment for the C8 counterexample: the head metrics row has
no manifest key. -/
def missingKeyEnv : OrchEnv :=
  { artifactsFound := true, metricsFound := true, getOrCreate := .created,
    headManifestKey := none, baseManifestKey := some "bm.json",
    loadManifest := fun _ => .error (), serverStartOk := true,
    fetch := fun _ => none, comparator := fun _ => [] }

/-- C8 counterexample: with a missing head manifest key the run does NOT
return quietly — the `ValueError` from `tasks.py` line 183 is raised outside
the inner manifest handler, so the outer handler marks the record `FAILED`
with the internal-error code and re-raises (outcome `raised`, not a quiet
return); no comparison manifest is written. -/
theorem missing_manifest_key_reraises :
    compare_snapshots missingKeyEnv 1 1 1 2 =
      { outcome := .raised,
        record := some { state := .failed, error_code := some .internalError },
        puts := [], comparatorCalls := 0 } := by
  rfl

/-- C8 amended: a missing or empty manifest key marks the record `FAILED`
with the internal-error code but re-raises (outcome `raised`); a storage
fetch, JSON decode or schema validation failure on either manifest marks
the record `FAILED` with the internal-error code and returns quietly; in
both cases nothing at all is written to blob storage, in particular no
partial comparison manifest. -/
theorem manifest_failure_marks_failed (env : OrchEnv)
    (orgId projectId headArtifactId baseArtifactId : Nat) (rec : CompRecord)
    (hart : env.artifactsFound = true) (hmet : env.metricsFound = true)
    (hacq : acquireComparison env.getOrCreate = .proceed rec) :
    ((usableKey env.headManifestKey = none ∨ usableKey env.baseManifestKey = none) →
      compare_snapshots env orgId projectId headArtifactId baseArtifactId =
        { outcome := .raised,
          record := some { rec with state := .failed, error_code := some .internalError },
          puts := [], comparatorCalls := 0 }) ∧
    (∀ headKey baseKey, usableKey env.headManifestKey = some headKey →
      usableKey env.baseManifestKey = some baseKey →
      (env.loadManifest headKey = .error () ∨
        (∃ hm, env.loadManifest headKey = .ok hm ∧
          env.loadManifest baseKey = .error ())) →
      compare_snapshots env orgId projectId headArtifactId baseArtifactId =
        { outcome := .manifestLoadFailed,
          record := some { rec with state := .failed, error_code := some .internalError },
          puts := [], comparatorCalls := 0 }) := by
  constructor
  · intro hmiss
    have hbody : runBody env orgId projectId headArtifactId baseArtifactId =
        .raised [] 0 := by
      rcases hh : usableKey env.headManifestKey with _ | k
      · simp [runBody, hh]
      · rcases hb2 : usableKey env.baseManifestKey with _ | k2
        · simp [runBody, hh, hb2]
        · exfalso
          rcases hmiss with h | h
          · rw [hh] at h; cases h
          · rw [hb2] at h; cases h
    simp [compare_snapshots, hart, hmet, hacq, hbody]
  · intro headKey baseKey hhk hbk hload
    have hbody : runBody env orgId projectId headArtifactId baseArtifactId =
        .manifestFailure := by
      rcases hload with h | ⟨hm, hok, herr⟩
      · simp [runBody, hhk, hbk, h]
      · simp [runBody, hhk, hbk, hok, herr]
    simp [compare_snapshots, hart, hmet, hacq, hbody]

/-- Concrete environment for the C8 amended-theorem witness: manifest keys
present but the head manifest fails to load/parse. -/
def loadFailEnv : OrchEnv :=
  { artifactsFound := true, metricsFound := true, getOrCreate := .created,
    headManifestKey := some "hm.json", baseManifestKey := some "bm.json",
    loadManifest := fun _ => .error (), serverStartOk := true,
    fetch := fun _ => none, comparator := fun _ => [] }

/-- Witness for the amended C8 theorem: a failing manifest load yields the
quiet `FAILED` outcome with nothing written. -/
theorem manifest_failure_marks_failed_witness :
    compare_snapshots loadFailEnv 1 2 3 4 =
      { outcome := .manifestLoadFailed,
        record := some { state := .failed, error_code := some .internalError },
        puts := [], comparatorCalls := 0 } :=
  (manifest_failure_marks_failed loadFailEnv 1 2 3 4 { state := .processing }
    rfl rfl rfl).2 "hm.json" "bm.json" rfl rfl (Or.inl rfl)

lemma mem_of_mem_create_pixel_batches (items : List DiffCandidate) (maxP : Nat)
    (b : List DiffCandidate) (hb : b ∈ create_pixel_batches items maxP)
    (c : DiffCandidate) (hc : c ∈ b) : c ∈ items := by
  have hfl : (create_pixel_batches items maxP).flatten = items := by
    simpa using createPixelBatchesAux_flatten maxP items [] 0
  rw [← hfl]
  exact List.mem_flatten.mpr ⟨b, hb, hc⟩

lemma classifyMatched_eligible_names (hbn bbn : List (String × String))
    (hi bi : List (String × ImageMetadata)) :
    ∀ (names : List String) (st st1 : ClassifyState),
      classifyMatched hbn bbn hi bi names st = .ok st1 →
      ∀ c ∈ st1.eligible,
        c.name ∈ st.eligible.map DiffCandidate.name ∨ c.name ∈ names := by
  intro names
  induction names with
  | nil =>
    intro st st1 hok c hc
    simp only [classifyMatched] at hok
    cases hok
    exact Or.inl (List.mem_map_of_mem _ hc)
  | cons name rest ih =>
    intro st st1 hok c hc
    rcases hh : dictGet hbn name with _ | headHash
    · exfalso; simp [classifyMatched, hh] at hok
    rcases hb2 : dictGet bbn name with _ | baseHash
    · exfalso; simp [classifyMatched, hh, hb2] at hok
    by_cases heq : headHash = baseHash
    · simp only [classifyMatched, hh, hb2, heq, if_true, if_pos] at hok
      rcases ih _ _ hok c hc with h | h
      · exact Or.inl h
      · exact Or.inr (List.mem_cons_of_mem _ h)
    · simp only [classifyMatched, hh, hb2, if_neg heq] at hok
      rcases hm1 : dictGet hi headHash with _ | headMeta
      · exfalso; simp [hm1] at hok
      rcases hm2 : dictGet bi baseHash with _ | baseMeta
      · exfalso; simp [hm1, hm2] at hok
      simp only [hm1, hm2] at hok
      by_cases hpix : max (headMeta.width * headMeta.height)
          (baseMeta.width * baseMeta.height) > MAX_DIFF_PIXELS
      · rw [if_pos hpix] at hok
        rcases ih _ _ hok c hc with h | h
        · exact Or.inl h
        · exact Or.inr (List.mem_cons_of_mem _ h)
      · rw [if_neg hpix] at hok
        rcases ih _ _ hok c hc with h | h
        · simp only [List.map_append, List.mem_append] at h
          rcases h with h | h
          · exact Or.inl h
          · simp at h
            exact Or.inr (by simp [h])
        · exact Or.inr (List.mem_cons_of_mem _ h)

/-- C7: a matched name whose head and base hashes differ and whose pixel
count exceeds the 40,000,000 ceiling is recorded as `errored` with reason
`exceeds_pixel_limit`, the classification loop continues normally with the
remaining names (the branch raises nothing), the name is never added to the
eligible candidates, and consequently it appears in no pixel batch — so it
is never fetched or compared. -/
theorem classify_oversized_image (hbn bbn : List (String × String))
    (hi bi : List (String × ImageMetadata)) (name : String) (rest : List String)
    (st : ClassifyState) (headHash baseHash : String)
    (headMeta baseMeta : ImageMetadata)
    (h1 : dictGet hbn name = some headHash)
    (h2 : dictGet bbn name = some baseHash)
    (hne : headHash ≠ baseHash)
    (h3 : dictGet hi headHash = some headMeta)
    (h4 : dictGet bi baseHash = some baseMeta)
    (hpix : max (headMeta.width * headMeta.height)
      (baseMeta.width * baseMeta.height) > MAX_DIFF_PIXELS) :
    (classifyMatched hbn bbn hi bi (name :: rest) st =
      classifyMatched hbn bbn hi bi rest
        { st with
          results := st.results ++ [(name, pixelLimitEntry headHash baseHash)],
          errors := st.errors + 1 }) ∧
    (pixelLimitEntry headHash baseHash).status = "errored" ∧
    (pixelLimitEntry headHash baseHash).reason = some "exceeds_pixel_limit" ∧
    ∀ st1, classifyMatched hbn bbn hi bi (name :: rest) st = .ok st1 →
      name ∉ st.eligible.map DiffCandidate.name → name ∉ rest →
      ∀ batch ∈ create_pixel_batches st1.eligible MAX_PIXELS_PER_BATCH,
        ∀ c ∈ batch, c.name ≠ name := by
  have hstep : classifyMatched hbn bbn hi bi (name :: rest) st =
      classifyMatched hbn bbn hi bi rest
        { st with
          results := st.results ++ [(name, pixelLimitEntry headHash baseHash)],
          errors := st.errors + 1 } := by
    simp [classifyMatched, h1, h2, hne, h3, h4, hpix]
  refine ⟨hstep, rfl, rfl, ?_⟩
  intro st1 hok hnelig hnrest batch hbatch c hc hcname
  rw [hstep] at hok
  have := classifyMatched_eligible_names hbn bbn hi bi rest _ st1 hok c
    (mem_of_mem_create_pixel_batches _ _ _ hbatch _ hc)
  rcases this with h | h
  · exact hnelig (hcname ▸ h)
  · exact hnrest (hcname ▸ h)

/-- Witness for C7 at a concrete input: a 7000×6000 image (42,000,000 px)
with differing hashes is classified `errored`/`exceeds_pixel_limit` and
lands in no batch. -/
theorem classify_oversized_image_witness :
    (classifyMatched [("a", "h1")] [("a", "h2")]
        [("h1", { image_file_name := "a", width := 7000, height := 6000 })]
        [("h2", { image_file_name := "a", width := 1, height := 1 })]
        ["a"] ⟨[], 0, 0, []⟩ =
      classifyMatched [("a", "h1")] [("a", "h2")]
        [("h1", { image_file_name := "a", width := 7000, height := 6000 })]
        [("h2", { image_file_name := "a", width := 1, height := 1 })]
        [] ⟨[("a", pixelLimitEntry "h1" "h2")], 0, 1, []⟩) ∧
    (pixelLimitEntry "h1" "h2").status = "errored" ∧
    (pixelLimitEntry "h1" "h2").reason = some "exceeds_pixel_limit" ∧
    ∀ st1, classifyMatched [("a", "h1")] [("a", "h2")]
        [("h1", { image_file_name := "a", width := 7000, height := 6000 })]
        [("h2", { image_file_name := "a", width := 1, height := 1 })]
        ["a"] ⟨[], 0, 0, []⟩ = .ok st1 →
      "a" ∉ ([] : List DiffCandidate).map DiffCandidate.name →
      "a" ∉ ([] : List String) →
      ∀ batch ∈ create_pixel_batches st1.eligible MAX_PIXELS_PER_BATCH,
        ∀ c ∈ batch, c.name ≠ "a" :=
  classify_oversized_image [("a", "h1")] [("a", "h2")]
    [("h1", { image_file_name := "a", width := 7000, height := 6000 })]
    [("h2", { image_file_name := "a", width := 1, height := 1 })]
    "a" [] ⟨[], 0, 0, []⟩ "h1" "h2"
    { image_file_name := "a", width := 7000, height := 6000 }
    { image_file_name := "a", width := 1, height := 1 }
    rfl rfl (by decide) rfl rfl (by decide)

lemma classifyMatched_accounting (hbn bbn : List (String × String))
    (hi bi : List (String × ImageMetadata)) :
    ∀ (names : List String) (st st1 : ClassifyState),
      classifyMatched hbn bbn hi bi names st = .ok st1 →
      ((st1.results.map Prod.fst : Multiset String) +
          (st1.eligible.map DiffCandidate.name : Multiset String) =
        (st.results.map Prod.fst : Multiset String) +
          (st.eligible.map DiffCandidate.name : Multiset String) +
          (names : Multiset String)) ∧
      st1.unchanged + st1.errors + st1.eligible.length =
        st.unchanged + st.errors + st.eligible.length + names.length := by
  intro names
  induction names with
  | nil =>
    intro st st1 hok
    simp only [classifyMatched] at hok
    cases hok
    simp
  | cons name rest ih =>
    intro st st1 hok
    rcases hh : dictGet hbn name with _ | headHash
    · exfalso; simp [classifyMatched, hh] at hok
    rcases hb2 : dictGet bbn name with _ | baseHash
    · exfalso; simp [classifyMatched, hh, hb2] at hok
    by_cases heq : headHash = baseHash
    · simp only [classifyMatched, hh, hb2, heq, if_true, if_pos] at hok
      obtain ⟨h1, h2⟩ := ih _ _ hok
      constructor
      · rw [h1]
        simp only [List.map_append, List.map_cons, List.map_nil,
          ← Multiset.coe_add, ← Multiset.cons_coe, ← Multiset.singleton_add]
        abel
      · simp at h2 ⊢
        omega
    · simp only [classifyMatched, hh, hb2, if_neg heq] at hok
      rcases hm1 : dictGet hi headHash with _ | headMeta
      · exfalso; simp [hm1] at hok
      rcases hm2 : dictGet bi baseHash with _ | baseMeta
      · exfalso; simp [hm1, hm2] at hok
      simp only [hm1, hm2] at hok
      by_cases hpix : max (headMeta.width * headMeta.height)
          (baseMeta.width * baseMeta.height) > MAX_DIFF_PIXELS
      · rw [if_pos hpix] at hok
        obtain ⟨h1, h2⟩ := ih _ _ hok
        constructor
        · rw [h1]
          simp only [List.map_append, List.map_cons, List.map_nil,
            ← Multiset.coe_add, ← Multiset.cons_coe, ← Multiset.singleton_add]
          abel
        · simp at h2 ⊢
          omega
      · rw [if_neg hpix] at hok
        obtain ⟨h1, h2⟩ := ih _ _ hok
        constructor
        · rw [h1]
          simp only [List.map_append, List.map_cons, List.map_nil,
            ← Multiset.coe_add, ← Multiset.cons_coe, ← Multiset.singleton_add]
          abel
        · simp at h2 ⊢
          omega

lemma fetchFailedState_errors (st : BatchLoopState) (c : DiffCandidate) :
    (fetchFailedState st c).errors = st.errors + 1 := rfl

lemma fetchFailedState_results (st : BatchLoopState) (c : DiffCandidate) :
    (fetchFailedState st c).results =
      st.results ++ [(c.name, fetchFailedEntry c.head_hash c.base_hash)] := rfl

lemma fetchCandidates_changed (fetch : String → Option Nat) (kp : String) :
    ∀ (batch : List DiffCandidate) (st : BatchLoopState),
      (fetchCandidates fetch kp batch st).1.changed = st.changed := by
  intro batch
  induction batch with
  | nil => intro st; rfl
  | cons c rest ih =>
    intro st
    rcases hhd : fetch (kp ++ "/" ++ c.head_hash) with _ | headData
    · simp only [fetchCandidates, hhd]; exact ih _
    rcases hbd : fetch (kp ++ "/" ++ c.base_hash) with _ | baseData
    · simp only [fetchCandidates, hhd, hbd]; exact ih _
    · simp only [fetchCandidates, hhd, hbd]; exact ih _

lemma fetchCandidates_unchanged (fetch : String → Option Nat) (kp : String) :
    ∀ (batch : List DiffCandidate) (st : BatchLoopState),
      (fetchCandidates fetch kp batch st).1.unchanged = st.unchanged := by
  intro batch
  induction batch with
  | nil => intro st; rfl
  | cons c rest ih =>
    intro st
    rcases hhd : fetch (kp ++ "/" ++ c.head_hash) with _ | headData
    · simp only [fetchCandidates, hhd]; exact ih _
    rcases hbd : fetch (kp ++ "/" ++ c.base_hash) with _ | baseData
    · simp only [fetchCandidates, hhd, hbd]; exact ih _
    · simp only [fetchCandidates, hhd, hbd]; exact ih _

lemma fetchCandidates_comparatorCalls (fetch : String → Option Nat) (kp : String) :
    ∀ (batch : List DiffCandidate) (st : BatchLoopState),
      (fetchCandidates fetch kp batch st).1.comparatorCalls = st.comparatorCalls := by
  intro batch
  induction batch with
  | nil => intro st; rfl
  | cons c rest ih =>
    intro st
    rcases hhd : fetch (kp ++ "/" ++ c.head_hash) with _ | headData
    · simp only [fetchCandidates, hhd]; exact ih _
    rcases hbd : fetch (kp ++ "/" ++ c.base_hash) with _ | baseData
    · simp only [fetchCandidates, hhd, hbd]; exact ih _
    · simp only [fetchCandidates, hhd, hbd]; exact ih _

lemma fetchCandidates_errors (fetch : String → Option Nat) (kp : String) :
    ∀ (batch : List DiffCandidate) (st : BatchLoopState),
      (fetchCandidates fetch kp batch st).1.errors +
        (fetchCandidates fetch kp batch st).2.2.1.length = st.errors + batch.length := by
  intro batch
  induction batch with
  | nil => intro st; simp [fetchCandidates]
  | cons c rest ih =>
    intro st
    rcases hhd : fetch (kp ++ "/" ++ c.head_hash) with _ | headData
    · simp only [fetchCandidates, hhd, List.length_cons]
      have h := ih (fetchFailedState st c)
      rw [fetchFailedState_errors] at h
      omega
    rcases hbd : fetch (kp ++ "/" ++ c.base_hash) with _ | baseData
    · simp only [fetchCandidates, hhd, hbd, List.length_cons]
      have h := ih (fetchFailedState st c)
      rw [fetchFailedState_errors] at h
      omega
    · simp only [fetchCandidates, hhd, hbd, List.length_cons]
      have h := ih st
      omega

lemma fetchCandidates_names_hashes_length (fetch : String → Option Nat) (kp : String) :
    ∀ (batch : List DiffCandidate) (st : BatchLoopState),
      (fetchCandidates fetch kp batch st).2.2.1.length =
        (fetchCandidates fetch kp batch st).2.2.2.length := by
  intro batch
  induction batch with
  | nil => intro st; rfl
  | cons c rest ih =>
    intro st
    rcases hhd : fetch (kp ++ "/" ++ c.head_hash) with _ | headData
    · simp only [fetchCandidates, hhd]; exact ih _
    rcases hbd : fetch (kp ++ "/" ++ c.base_hash) with _ | baseData
    · simp only [fetchCandidates, hhd, hbd]; exact ih _
    · simp only [fetchCandidates, hhd, hbd, List.length_cons]
      rw [ih]

lemma fetchCandidates_keys (fetch : String → Option Nat) (kp : String) :
    ∀ (batch : List DiffCandidate) (st : BatchLoopState),
      (((fetchCandidates fetch kp batch st).1.results.map Prod.fst : List String) :
          Multiset String) +
        ((fetchCandidates fetch kp batch st).2.2.1 : Multiset String) =
      ((st.results.map Prod.fst : List String) : Multiset String) +
        ((batch.map DiffCandidate.name : List String) : Multiset String) := by
  intro batch
  induction batch with
  | nil => intro st; simp [fetchCandidates]
  | cons c rest ih =>
    intro st
    rcases hhd : fetch (kp ++ "/" ++ c.head_hash) with _ | headData
    · simp only [fetchCandidates, hhd]
      rw [ih (fetchFailedState st c), fetchFailedState_results]
      simp only [List.map_append, List.map_cons, List.map_nil,
        ← Multiset.coe_add, ← Multiset.cons_coe, ← Multiset.singleton_add]
      abel
    rcases hbd : fetch (kp ++ "/" ++ c.base_hash) with _ | baseData
    · simp only [fetchCandidates, hhd, hbd]
      rw [ih (fetchFailedState st c), fetchFailedState_results]
      simp only [List.map_append, List.map_cons, List.map_nil,
        ← Multiset.coe_add, ← Multiset.cons_coe, ← Multiset.singleton_add]
      abel
    · simp only [fetchCandidates, hhd, hbd]
      have h := ih st
      simp only [List.map_cons, ← Multiset.cons_coe, ← Multiset.singleton_add]
      rw [add_left_comm, h, add_left_comm]

lemma processResults_spec (kp : String) (hid bid : Nat) :
    ∀ (names : List String) (hashes : List (String × String))
      (results : List (Option DiffResult)) (st : BatchLoopState),
      (processResults kp hid bid names hashes results st).2 = false →
      ((processResults kp hid bid names hashes results st).1.results.map Prod.fst =
        st.results.map Prod.fst ++ names) ∧
      ((processResults kp hid bid names hashes results st).1.changed +
          (processResults kp hid bid names hashes results st).1.unchanged +
          (processResults kp hid bid names hashes results st).1.errors =
        st.changed + st.unchanged + st.errors + names.length) ∧
      (processResults kp hid bid names hashes results st).1.comparatorCalls =
        st.comparatorCalls := by
  intro names
  induction names with
  | nil =>
    intro hashes results st hok
    cases hashes with
    | nil =>
      cases results with
      | nil => simp [processResults]
      | cons r rs => simp [processResults] at hok
    | cons hp hs => simp [processResults] at hok
  | cons name ns ih =>
    intro hashes results st hok
    cases hashes with
    | nil => simp [processResults] at hok
    | cons hp hs =>
      cases results with
      | nil => simp [processResults] at hok
      | cons r rs =>
        cases r with
        | none =>
          simp only [processResults] at hok ⊢
          obtain ⟨h1, h2, h3⟩ := ih hs rs _ hok
          refine ⟨?_, ?_, by rw [h3]⟩
          · rw [h1]; simp
          · simp at h2 ⊢; omega
        | some dr =>
          simp only [processResults] at hok ⊢
          by_cases hch : dr.changed_pixels > 0
          · rw [if_pos hch] at hok ⊢
            obtain ⟨h1, h2, h3⟩ := ih hs rs _ hok
            refine ⟨?_, ?_, by rw [h3]⟩
            · rw [h1]; simp
            · simp at h2 ⊢; omega
          · rw [if_neg hch] at hok ⊢
            obtain ⟨h1, h2, h3⟩ := ih hs rs _ hok
            refine ⟨?_, ?_, by rw [h3]⟩
            · rw [h1]; simp
            · simp at h2 ⊢; omega

lemma runBatches_spec (fetch : String → Option Nat)
    (comparator : List (Nat × Nat) → List (Option DiffResult))
    (kp : String) (hid bid : Nat) :
    ∀ (batches : List (List DiffCandidate)) (st : BatchLoopState),
      (runBatches fetch comparator kp hid bid batches st).2 = false →
      (((runBatches fetch comparator kp hid bid batches st).1.results.map
            Prod.fst : List String) : Multiset String) =
        ((st.results.map Prod.fst : List String) : Multiset String) +
          ((batches.flatten.map DiffCandidate.name : List String) : Multiset String) ∧
      (runBatches fetch comparator kp hid bid batches st).1.changed +
          (runBatches fetch comparator kp hid bid batches st).1.unchanged +
          (runBatches fetch comparator kp hid bid batches st).1.errors =
        st.changed + st.unchanged + st.errors + batches.flatten.length := by
  intro batches
  induction batches with
  | nil =>
    intro st hok
    simp [runBatches]
  | cons batch rest ih =>
    intro st hok
    simp only [runBatches] at hok ⊢
    by_cases hp : (processResults kp hid bid
        (fetchCandidates fetch kp batch st).2.2.1
        (fetchCandidates fetch kp batch st).2.2.2
        (comparator (fetchCandidates fetch kp batch st).2.1)
        { (fetchCandidates fetch kp batch st).1 with
          comparatorCalls :=
            (fetchCandidates fetch kp batch st).1.comparatorCalls + 1 }).2 = true
    · rw [if_pos hp] at hok
      simp at hok
    · rw [if_neg hp] at hok ⊢
      obtain ⟨k1, k2⟩ := ih _ hok
      obtain ⟨p1, p2, _⟩ := processResults_spec kp hid bid _ _ _ _
        (Bool.not_eq_true _ ▸ hp)
      have f1 := fetchCandidates_keys fetch kp batch st
      have f2 := fetchCandidates_errors fetch kp batch st
      have f3 := fetchCandidates_changed fetch kp batch st
      have f4 := fetchCandidates_unchanged fetch kp batch st
      constructor
      · rw [k1, p1]
        simp only [List.map_append, List.flatten_cons, ← Multiset.coe_add]
        rw [← add_assoc, ← f1]
      · rw [k2]
        simp only at p2
        simp only [List.flatten_cons, List.length_append]
        omega

lemma addAddedEntries_keys (hbn : List (String × String)) :
    ∀ (names : List String) (results results1 : List (String × ImageResultEntry)),
      addAddedEntries hbn names results = .ok results1 →
      results1.map Prod.fst = results.map Prod.fst ++ names := by
  intro names
  induction names with
  | nil =>
    intro results results1 hok
    simp only [addAddedEntries] at hok
    cases hok
    simp
  | cons name rest ih =>
    intro results results1 hok
    rcases hh : dictGet hbn name with _ | h
    · exfalso; simp [addAddedEntries, hh] at hok
    · simp only [addAddedEntries, hh] at hok
      rw [ih _ _ hok]
      simp

lemma addRemovedEntries_keys (bbn : List (String × String))
    (bimgs : List (String × ImageMetadata)) :
    ∀ (names : List String) (results results1 : List (String × ImageResultEntry)),
      addRemovedEntries bbn bimgs names results = .ok results1 →
      results1.map Prod.fst = results.map Prod.fst ++ names := by
  intro names
  induction names with
  | nil =>
    intro results results1 hok
    simp only [addRemovedEntries] at hok
    cases hok
    simp
  | cons name rest ih =>
    intro results results1 hok
    rcases hh : dictGet bbn name with _ | baseHash
    · exfalso; simp [addRemovedEntries, hh] at hok
    rcases hm : dictGet bimgs baseHash with _ | baseMeta
    · exfalso; simp [addRemovedEntries, hh, hm] at hok
    · simp only [addRemovedEntries, hh, hm] at hok
      rw [ih _ _ hok]
      simp

lemma dictInsert_keys {α : Type} (m : List (String × α)) (k : String) (v : α) :
    (dictInsert m k v).map Prod.fst =
      if (m.map Prod.fst).contains k then m.map Prod.fst
      else m.map Prod.fst ++ [k] := by
  unfold dictInsert
  by_cases h : (m.map Prod.fst).contains k
  · rw [if_pos h, if_pos h, List.map_map]
    refine List.map_congr_left ?_
    intro p hp
    by_cases hpk : p.1 = k
    · simp [Function.comp, hpk]
    · simp [Function.comp, hpk]
  · rw [if_neg h, if_neg h, List.map_append]
    rfl

lemma dictInsert_keys_nodup {α : Type} (m : List (String × α)) (k : String) (v : α)
    (h : (m.map Prod.fst).Nodup) : ((dictInsert m k v).map Prod.fst).Nodup := by
  rw [dictInsert_keys]
  by_cases hc : (m.map Prod.fst).contains k
  · rw [if_pos hc]; exact h
  · rw [if_neg hc]
    have hk : k ∉ m.map Prod.fst := by simpa using hc
    simp [List.nodup_append, h, hk]

lemma buildByName_keys_nodup (images : List (String × ImageMetadata)) :
    ((buildByName images).map Prod.fst).Nodup := by
  have haux : ∀ (imgs : List (String × ImageMetadata))
      (acc : List (String × String)), (acc.map Prod.fst).Nodup →
      ((imgs.foldl (fun a p => dictInsert a p.2.image_file_name p.1) acc).map
        Prod.fst).Nodup := by
    intro imgs
    induction imgs with
    | nil => intro acc hacc; simpa using hacc
    | cons p rest ih =>
      intro acc hacc
      exact ih _ (dictInsert_keys_nodup acc p.2.image_file_name p.1 hacc)
  exact haux images [] (by simp)

lemma manifestNames_nodup (man : SnapshotManifest) : (manifestNames man).Nodup :=
  buildByName_keys_nodup man.images

lemma split_names_nodup (hman bman : SnapshotManifest) :
    (matchedNames hman bman ++ addedNames hman bman ++
      removedNames hman bman).Nodup := by
  have hh := manifestNames_nodup hman
  have hb := manifestNames_nodup bman
  have hmn : (matchedNames hman bman).Nodup := hh.filter _
  have han : (addedNames hman bman).Nodup := hh.filter _
  have hrn : (removedNames hman bman).Nodup := hb.filter _
  rw [List.append_assoc, List.nodup_append]
  refine ⟨hmn, ?_, ?_⟩
  · rw [List.nodup_append]
    refine ⟨han, hrn, ?_⟩
    intro a hadd hrem
    simp only [addedNames, List.mem_filter] at hadd
    simp only [removedNames, List.mem_filter, decide_eq_true_eq] at hrem
    exact hrem.2 (by simpa using hadd.1)
  · intro a hmat hrest
    simp only [matchedNames, List.mem_filter, decide_eq_true_eq] at hmat
    rcases List.mem_append.mp hrest with hadd | hrem
    · simp only [addedNames, List.mem_filter, decide_eq_true_eq] at hadd
      exact hadd.2 hmat.2
    · simp only [removedNames, List.mem_filter, decide_eq_true_eq] at hrem
      exact hrem.2 (by simpa using hmat.1)

lemma sortedNames_perm (names : List String) : (sortedNames names).Perm names :=
  List.mergeSort_perm names _

lemma sortedNames_length (names : List String) :
    (sortedNames names).length = names.length :=
  (sortedNames_perm names).length_eq

lemma sortedNames_coe (names : List String) :
    ((sortedNames names : List String) : Multiset String) = (names : Multiset String) :=
  Multiset.coe_eq_coe.mpr (sortedNames_perm names)

/-- C9: in the comparison manifest of a successful run the summary counts
are exact tallies: `total = |matched| + |added| + |removed|`,
`added = |added|`, `removed = |removed|`,
`changed + unchanged + errored = |matched|`, and the image map's keys are
exactly the matched, added and removed names, each exactly once. -/
theorem comparison_manifest_summary (env : OrchEnv)
    (orgId projectId headArtifactId baseArtifactId : Nat)
    (hman bman : SnapshotManifest) (m : ComparisonManifestData)
    (ck : String) (puts : List String) (calls : Nat)
    (hrun : processManifests env orgId projectId headArtifactId baseArtifactId
      hman bman = .done m ck puts calls) :
    m.summary.total = (matchedNames hman bman).length +
      (addedNames hman bman).length + (removedNames hman bman).length ∧
    m.summary.added = (addedNames hman bman).length ∧
    m.summary.removed = (removedNames hman bman).length ∧
    m.summary.changed + m.summary.unchanged + m.summary.errored =
      (matchedNames hman bman).length ∧
    ((m.images.map Prod.fst : List String) : Multiset String) =
      ((matchedNames hman bman ++ addedNames hman bman ++
        removedNames hman bman : List String) : Multiset String) ∧
    (m.images.map Prod.fst).Nodup := by
  simp only [processManifests] at hrun
  rcases hcls : classifyMatched (buildByName hman.images) (buildByName bman.images)
      hman.images bman.images (sortedNames (matchedNames hman bman))
      ⟨[], 0, 0, []⟩ with e | cls <;> simp only [hcls] at hrun
  · cases hrun
  by_cases hs : env.serverStartOk = false
  · rw [if_pos hs] at hrun; cases hrun
  rw [if_neg hs] at hrun
  by_cases hlp : (runBatches env.fetch env.comparator
      (toString orgId ++ "/" ++ toString projectId) headArtifactId baseArtifactId
      (create_pixel_batches cls.eligible MAX_PIXELS_PER_BATCH)
      ⟨cls.results, 0, cls.unchanged, cls.errors, [], 0⟩).2 = true
  · rw [if_pos hlp] at hrun; cases hrun
  rw [if_neg hlp] at hrun
  rcases hadd : addAddedEntries (buildByName hman.images)
      (sortedNames (addedNames hman bman))
      (runBatches env.fetch env.comparator
        (toString orgId ++ "/" ++ toString projectId) headArtifactId
        baseArtifactId (create_pixel_batches cls.eligible MAX_PIXELS_PER_BATCH)
        ⟨cls.results, 0, cls.unchanged, cls.errors, [], 0⟩).1.results
      with e2 | withAdded <;> simp only [hadd] at hrun
  · cases hrun
  rcases hrem : addRemovedEntries (buildByName bman.images) bman.images
      (sortedNames (removedNames hman bman)) withAdded with e3 | allResults <;>
    simp only [hrem] at hrun
  · cases hrun
  injection hrun with hm hck hpp hcc
  subst hm
  obtain ⟨ck1, ck2⟩ := classifyMatched_accounting (buildByName hman.images)
    (buildByName bman.images) hman.images bman.images
    (sortedNames (matchedNames hman bman)) ⟨[], 0, 0, []⟩ cls hcls
  obtain ⟨rk, rc⟩ := runBatches_spec env.fetch env.comparator
    (toString orgId ++ "/" ++ toString projectId) headArtifactId baseArtifactId
    (create_pixel_batches cls.eligible MAX_PIXELS_PER_BATCH)
    ⟨cls.results, 0, cls.unchanged, cls.errors, [], 0⟩ (by simpa using hlp)
  have hfl : (create_pixel_batches cls.eligible MAX_PIXELS_PER_BATCH).flatten =
      cls.eligible := by
    simpa using createPixelBatchesAux_flatten MAX_PIXELS_PER_BATCH cls.eligible [] 0
  have ha1 := addAddedEntries_keys (buildByName hman.images)
    (sortedNames (addedNames hman bman)) _ _ hadd
  have ha2 := addRemovedEntries_keys (buildByName bman.images) bman.images
    (sortedNames (removedNames hman bman)) _ _ hrem
  have hms : ((allResults.map Prod.fst : List String) : Multiset String) =
      ((matchedNames hman bman ++ addedNames hman bman ++
        removedNames hman bman : List String) : Multiset String) := by
    simp only [List.map_nil, Multiset.coe_nil, zero_add] at ck1
    rw [ha2, ha1]
    simp only [← Multiset.coe_add]
    rw [rk, hfl]
    dsimp only
    rw [ck1, sortedNames_coe, sortedNames_coe, sortedNames_coe]
  refine ⟨rfl, rfl, rfl, ?_, hms,
    (Multiset.coe_eq_coe.mp hms).nodup_iff.mpr (split_names_nodup hman bman)⟩
  rw [hfl] at rc
  simp at rc ck2
  try rw [sortedNames_length] at ck2
  exact rc.trans ck2

/-- Concrete environment for the C9 witness. -/
def tallyEnv : OrchEnv :=
  { artifactsFound := true, metricsFound := true, getOrCreate := .created,
    headManifestKey := some "hm.json", baseManifestKey := some "bm.json",
    loadManifest := fun _ => .ok ⟨[]⟩, serverStartOk := true,
    fetch := fun _ => none, comparator := fun _ => [] }

/-- Witness for C9 at a concrete input: a successful run over two concrete
manifests yields a manifest whose summary tallies and image keys obey the
claimed identities. -/
theorem comparison_manifest_summary_witness :
    (processManifests tallyEnv 1 2 3 4 ⟨[]⟩ ⟨[]⟩ =
      .done ⟨3, 4, ⟨0, 0, 0, 0, 0, 0⟩, []⟩
        (toString 1 ++ "/" ++ toString 2 ++ "/" ++ toString 3 ++ "/" ++
          toString 4 ++ "/comparison.json")
        [toString 1 ++ "/" ++ toString 2 ++ "/" ++ toString 3 ++ "/" ++
          toString 4 ++ "/comparison.json"] 0) ∧
    ((⟨3, 4, ⟨0, 0, 0, 0, 0, 0⟩, []⟩ : ComparisonManifestData).summary.total =
      (matchedNames ⟨[]⟩ ⟨[]⟩).length + (addedNames ⟨[]⟩ ⟨[]⟩).length +
        (removedNames ⟨[]⟩ ⟨[]⟩).length ∧
    (⟨3, 4, ⟨0, 0, 0, 0, 0, 0⟩, []⟩ : ComparisonManifestData).summary.added =
      (addedNames ⟨[]⟩ ⟨[]⟩).length ∧
    (⟨3, 4, ⟨0, 0, 0, 0, 0, 0⟩, []⟩ : ComparisonManifestData).summary.removed =
      (removedNames ⟨[]⟩ ⟨[]⟩).length ∧
    (⟨3, 4, ⟨0, 0, 0, 0, 0, 0⟩, []⟩ : ComparisonManifestData).summary.changed +
        (⟨3, 4, ⟨0, 0, 0, 0, 0, 0⟩, []⟩ : ComparisonManifestData).summary.unchanged +
        (⟨3, 4, ⟨0, 0, 0, 0, 0, 0⟩, []⟩ : ComparisonManifestData).summary.errored =
      (matchedNames ⟨[]⟩ ⟨[]⟩).length ∧
    (((⟨3, 4, ⟨0, 0, 0, 0, 0, 0⟩, []⟩ : ComparisonManifestData).images.map
        Prod.fst : List String) : Multiset String) =
      ((matchedNames ⟨[]⟩ ⟨[]⟩ ++ addedNames ⟨[]⟩ ⟨[]⟩ ++
        removedNames ⟨[]⟩ ⟨[]⟩ : List String) : Multiset String) ∧
    ((⟨3, 4, ⟨0, 0, 0, 0, 0, 0⟩, []⟩ : ComparisonManifestData).images.map
      Prod.fst).Nodup) :=
  ⟨by simp [processManifests, tallyEnv, matchedNames, addedNames, removedNames,
      manifestNames, buildByName, sortedNames, classifyMatched,
      create_pixel_batches, createPixelBatchesAux, runBatches,
      addAddedEntries, addRemovedEntries],
    comparison_manifest_summary tallyEnv 1 2 3 4 ⟨[]⟩ ⟨[]⟩
      ⟨3, 4, ⟨0, 0, 0, 0, 0, 0⟩, []⟩
      (toString 1 ++ "/" ++ toString 2 ++ "/" ++ toString 3 ++ "/" ++
        toString 4 ++ "/comparison.json")
      [toString 1 ++ "/" ++ toString 2 ++ "/" ++ toString 3 ++ "/" ++
        toString 4 ++ "/comparison.json"] 0
      (by simp [processManifests, tallyEnv, matchedNames, addedNames,
        removedNames, manifestNames, buildByName, sortedNames, classifyMatched,
        create_pixel_batches, createPixelBatchesAux, runBatches,
        addAddedEntries, addRemovedEntries])⟩

/-! ## Presentation categorizer (`comparison_categorizer.py`) -/

/-- `ComparisonImageResult` pydantic model from `manifest.py`. -/
structure ComparisonImageResult where
  status : String
  head_hash : Option String := none
  base_hash : Option String := none
  changed_pixels : Option Nat := none
  total_pixels : Option Nat := none
  diff_mask_key : Option String := none
  diff_mask_image_id : Option String := none
  before_width : Option Nat := none
  before_height : Option Nat := none
  after_width : Option Nat := none
  after_height : Option Nat := none
  aligned_height : Option Nat := none
  reason : Option String := none
  deriving DecidableEq, Repr

/-- `ComparisonManifest` pydantic model from `manifest.py` (the document the
categorizer consumes). -/
structure ComparisonManifest where
  head_artifact_id : Int
  base_artifact_id : Int
  summary : ComparisonSummary
  images : List (String × ComparisonImageResult)

/-- Modelled from the spec (§4.4 presentation categorization): the API-side
`SnapshotImageResponse` record; its module is not part of the sources, its
fields are those the categorizer constructs. -/
structure SnapshotImageResponse where
  key : String
  display_name : Option String := none
  image_file_name : String
  width : Nat
  height : Nat
  deriving DecidableEq, Repr

/-- Modelled from the spec (§4.4): the API-side `SnapshotDiffPair` record
pairing base and head images for side-by-side display. -/
structure SnapshotDiffPair where
  base_image : SnapshotImageResponse
  head_image : SnapshotImageResponse
  diff_image_key : Option String := none
  diff : Option ℚ := none
  deriving DecidableEq, Repr

/-- `CategorizedComparison` from `comparison_categorizer.py`. -/
structure CategorizedComparison where
  changed : List SnapshotDiffPair := []
  added : List SnapshotImageResponse := []
  removed : List SnapshotImageResponse := []
  unchanged : List SnapshotImageResponse := []
  errored : List SnapshotDiffPair := []
  deriving DecidableEq, Repr

/-- Python `x or default` on an optional string: `None` and `""` are falsy. -/
def orElseStr (a : Option String) (b : String) : String :=
  match a with
  | some s => if s = "" then b else s
  | none => b

/-- Python `x or default` on an optional natural: `None` and `0` are falsy. -/
def orElseNat (a : Option Nat) (b : Nat) : Nat :=
  match a with
  | some n => if n = 0 then b else n
  | none => b

/-- `_base_image_from_comparison` from `comparison_categorizer.py` lines
25-32: a placeholder base image synthesized from the comparison entry's own
fields. -/
def baseImageFromComparison (name : String) (img : ComparisonImageResult) :
    SnapshotImageResponse :=
  { key := orElseStr img.base_hash "", display_name := some name,
    image_file_name := name, width := orElseNat img.before_width 0,
    height := orElseNat img.before_height 0 }

/-- `_build_base_images` from `comparison_categorizer.py` lines 35-47. -/
def buildBaseImages (baseImages : List (String × ImageMetadata)) :
    List (String × SnapshotImageResponse) :=
  baseImages.foldl
    (fun acc p => dictInsert acc p.2.image_file_name
      { key := p.1, display_name := p.2.display_name,
        image_file_name := p.2.image_file_name, width := p.2.width,
        height := p.2.height }) []

/-- The `diff` ratio of a changed pair (`comparison_categorizer.py` lines
70-72): `changed_pixels / total_pixels` when `changed_pixels` is present and
`total_pixels` is present and non-zero (Python truthiness), else `None`. -/
def diffRatio (img : ComparisonImageResult) : Option ℚ :=
  match img.changed_pixels, img.total_pixels with
  | some cp, some tp => if tp = 0 then none else some ((cp : ℚ) / (tp : ℚ))
  | _, _ => none

/-- The placeholder head image synthesized for an `errored` entry
(`comparison_categorizer.py` lines 84-90). -/
def erroredHeadPlaceholder (name : String) (img : ComparisonImageResult) :
    SnapshotImageResponse :=
  { key := orElseStr img.head_hash (orElseStr img.base_hash ""),
    display_name := some name, image_file_name := name,
    width := orElseNat img.after_width (orElseNat img.before_width 0),
    height := orElseNat img.after_height (orElseNat img.before_height 0) }

/-- The loop body of `categorize_comparison_images`
(`comparison_categorizer.py` lines 59-96): a `changed`/`added`/`unchanged`
entry is appended only when a head record exists; `removed` and `errored`
entries are always appended, substituting placeholders for missing
records. -/
def categorizeStep (headImagesByFileName : List (String × SnapshotImageResponse))
    (baseImagesByFileName : List (String × SnapshotImageResponse))
    (acc : CategorizedComparison) (entry : String × ComparisonImageResult) :
    CategorizedComparison :=
  let name := entry.1
  let img := entry.2
  let headImg := dictGet headImagesByFileName name
  let baseImg := dictGet baseImagesByFileName name
  if img.status = "changed" then
    match headImg with
    | some h =>
      { acc with changed := acc.changed ++
          [{ base_image := baseImg.getD (baseImageFromComparison name img),
             head_image := h, diff_image_key := img.diff_mask_image_id,
             diff := diffRatio img }] }
    | none => acc
  else if img.status = "added" then
    match headImg with
    | some h => { acc with added := acc.added ++ [h] }
    | none => acc
  else if img.status = "removed" then
    { acc with removed := acc.removed ++
        [baseImg.getD (baseImageFromComparison name img)] }
  else if img.status = "unchanged" then
    match headImg with
    | some h => { acc with unchanged := acc.unchanged ++ [h] }
    | none => acc
  else if img.status = "errored" then
    { acc with errored := acc.errored ++
        [{ base_image := baseImg.getD (baseImageFromComparison name img),
           head_image := headImg.getD (erroredHeadPlaceholder name img) }] }
  else acc

/-- `categorize_comparison_images` from `comparison_categorizer.py` (lines
50-99): iterate the comparison entries in sorted-name order accumulating the
five categories, then stably sort the changed pairs by descending diff
ratio (`p.diff or 0`). -/
def categorize_comparison_images (comparisonData : ComparisonManifest)
    (headImagesByFileName : List (String × SnapshotImageResponse))
    (baseManifest : Option SnapshotManifest) : CategorizedComparison :=
  let baseImagesByFileName :=
    match baseManifest with
    | some bm => buildBaseImages bm.images
    | none => []
  let result := (comparisonData.images.mergeSort
      (fun a b => decide (a.1 ≤ b.1))).foldl
    (categorizeStep headImagesByFileName baseImagesByFileName)
    { changed := [], added := [], removed := [], unchanged := [], errored := [] }
  let sortedChanged :=
    result.changed.mergeSort (fun a b => decide (b.diff.getD 0 ≤ a.diff.getD 0))
  { result with changed := sortedChanged }

/-- A `changed` entry survives categorization only with a head record. -/
def keepChanged (head : List (String × SnapshotImageResponse))
    (e : String × ComparisonImageResult) : Bool :=
  e.2.status = "changed" && (dictGet head e.1).isSome

/-- An `added` entry survives categorization only with a head record. -/
def keepAdded (head : List (String × SnapshotImageResponse))
    (e : String × ComparisonImageResult) : Bool :=
  e.2.status = "added" && (dictGet head e.1).isSome

/-- An `unchanged` entry survives categorization only with a head record. -/
def keepUnchanged (head : List (String × SnapshotImageResponse))
    (e : String × ComparisonImageResult) : Bool :=
  e.2.status = "unchanged" && (dictGet head e.1).isSome

/-- Status test for `removed` entries. -/
def isRemovedStatus (e : String × ComparisonImageResult) : Bool :=
  e.2.status = "removed"

/-- Status test for `errored` entries. -/
def isErroredStatus (e : String × ComparisonImageResult) : Bool :=
  e.2.status = "errored"

lemma categorizeStep_lengths (head base : List (String × SnapshotImageResponse))
    (acc : CategorizedComparison) (e : String × ComparisonImageResult) :
    (categorizeStep head base acc e).changed.length = acc.changed.length +
      (if keepChanged head e then 1 else 0) ∧
    (categorizeStep head base acc e).added.length = acc.added.length +
      (if keepAdded head e then 1 else 0) ∧
    (categorizeStep head base acc e).removed.length = acc.removed.length +
      (if isRemovedStatus e then 1 else 0) ∧
    (categorizeStep head base acc e).unchanged.length = acc.unchanged.length +
      (if keepUnchanged head e then 1 else 0) ∧
    (categorizeStep head base acc e).errored.length = acc.errored.length +
      (if isErroredStatus e then 1 else 0) := by
  rcases hh : dictGet head e.1 with _ | h <;>
    by_cases h1 : e.2.status = "changed" <;>
    by_cases h2 : e.2.status = "added" <;>
    by_cases h3 : e.2.status = "removed" <;>
    by_cases h4 : e.2.status = "unchanged" <;>
    by_cases h5 : e.2.status = "errored" <;>
    simp_all [categorizeStep, keepChanged, keepAdded, keepUnchanged,
      isRemovedStatus, isErroredStatus]

lemma categorizeFold_lengths (head base : List (String × SnapshotImageResponse)) :
    ∀ (entries : List (String × ComparisonImageResult))
      (acc : CategorizedComparison),
      ((entries.foldl (categorizeStep head base) acc).changed.length =
        acc.changed.length + entries.countP (keepChanged head)) ∧
      ((entries.foldl (categorizeStep head base) acc).added.length =
        acc.added.length + entries.countP (keepAdded head)) ∧
      ((entries.foldl (categorizeStep head base) acc).removed.length =
        acc.removed.length + entries.countP isRemovedStatus) ∧
      ((entries.foldl (categorizeStep head base) acc).unchanged.length =
        acc.unchanged.length + entries.countP (keepUnchanged head)) ∧
      ((entries.foldl (categorizeStep head base) acc).errored.length =
        acc.errored.length + entries.countP isErroredStatus) := by
  intro entries
  induction entries with
  | nil => intro acc; simp
  | cons e rest ih =>
    intro acc
    obtain ⟨s1, s2, s3, s4, s5⟩ := categorizeStep_lengths head base acc e
    obtain ⟨i1, i2, i3, i4, i5⟩ := ih (categorizeStep head base acc e)
    simp only [List.foldl_cons, List.countP_cons] at *
    refine ⟨?_, ?_, ?_, ?_, ?_⟩
    · rw [i1, s1]; by_cases hc : keepChanged head e <;> simp [hc] <;> omega
    · rw [i2, s2]; by_cases hc : keepAdded head e <;> simp [hc] <;> omega
    · rw [i3, s3]; by_cases hc : isRemovedStatus e <;> simp [hc] <;> omega
    · rw [i4, s4]; by_cases hc : keepUnchanged head e <;> simp [hc] <;> omega
    · rw [i5, s5]; by_cases hc : isErroredStatus e <;> simp [hc] <;> omega

/-- C10: in `categorize_comparison_images`, a `changed`, `added` or
`unchanged` entry whose name has no record in `head_images_by_file_name`
contributes to no category (silently omitted), while every `removed` and
every `errored` entry is always included, substituting a placeholder
synthesized from the comparison entry's own fields whenever the base or
head image record is missing; consequently the returned category sizes
count exactly the surviving entries. -/
theorem categorize_missing_head (head base : List (String × SnapshotImageResponse))
    (acc : CategorizedComparison) (name : String) (img : ComparisonImageResult)
    (cd : ComparisonManifest) (bm : Option SnapshotManifest) :
    ((img.status = "changed" ∨ img.status = "added" ∨ img.status = "unchanged") →
      dictGet head name = none →
      categorizeStep head base acc (name, img) = acc) ∧
    (img.status = "removed" →
      categorizeStep head base acc (name, img) =
        { acc with removed := acc.removed ++
            [(dictGet base name).getD (baseImageFromComparison name img)] }) ∧
    (img.status = "errored" →
      categorizeStep head base acc (name, img) =
        { acc with errored := acc.errored ++
            [{ base_image := (dictGet base name).getD
                 (baseImageFromComparison name img),
               head_image := (dictGet head name).getD
                 (erroredHeadPlaceholder name img) }] }) ∧
    (categorize_comparison_images cd head bm).changed.length =
      cd.images.countP (keepChanged head) ∧
    (categorize_comparison_images cd head bm).added.length =
      cd.images.countP (keepAdded head) ∧
    (categorize_comparison_images cd head bm).removed.length =
      cd.images.countP isRemovedStatus ∧
    (categorize_comparison_images cd head bm).unchanged.length =
      cd.images.countP (keepUnchanged head) ∧
    (categorize_comparison_images cd head bm).errored.length =
      cd.images.countP isErroredStatus := by
  have hperm : (cd.images.mergeSort (fun a b => decide (a.1 ≤ b.1))).Perm
      cd.images := List.mergeSort_perm cd.images _
  obtain ⟨f1, f2, f3, f4, f5⟩ := categorizeFold_lengths head
    (match bm with | some b => buildBaseImages b.images | none => [])
    (cd.images.mergeSort (fun a b => decide (a.1 ≤ b.1)))
    { changed := [], added := [], removed := [], unchanged := [], errored := [] }
  refine ⟨?_, ?_, ?_, ?_, ?_, ?_, ?_, ?_⟩
  · intro hst hmiss
    rcases hst with h | h | h <;> simp [categorizeStep, h, hmiss]
  · intro h
    simp [categorizeStep, h]
  · intro h
    simp [categorizeStep, h]
  · simp only [categorize_comparison_images]
    rw [(List.mergeSort_perm _ _).length_eq, f1]
    simpa using hperm.countP_eq (keepChanged head)
  · simp only [categorize_comparison_images]
    rw [f2]
    simpa using hperm.countP_eq (keepAdded head)
  · simp only [categorize_comparison_images]
    rw [f3]
    simpa using hperm.countP_eq isRemovedStatus
  · simp only [categorize_comparison_images]
    rw [f4]
    simpa using hperm.countP_eq (keepUnchanged head)
  · simp only [categorize_comparison_images]
    rw [f5]
    simpa using hperm.countP_eq isErroredStatus

/-- Concrete comparison entry for the C10 witness: a `removed` entry with no
image records available anywhere. -/
def catWitnessImg : ComparisonImageResult :=
  { status := "removed", base_hash := some "bh", before_width := some 3,
    before_height := some 4 }

/-- Concrete comparison manifest for the C10 witness. -/
def catWitnessManifest : ComparisonManifest :=
  ⟨0, 0, ⟨1, 0, 0, 0, 1, 0⟩, [("x", catWitnessImg)]⟩

/-- Witness for C10 at a concrete input: a `removed` entry with no head or
base record is still included, via the synthesized placeholder, and the
category sizes count the surviving entries. -/
theorem categorize_missing_head_witness :
    ((catWitnessImg.status = "changed" ∨ catWitnessImg.status = "added" ∨
        catWitnessImg.status = "unchanged") →
      dictGet ([] : List (String × SnapshotImageResponse)) "x" = none →
      categorizeStep [] [] ⟨[], [], [], [], []⟩ ("x", catWitnessImg) =
        ⟨[], [], [], [], []⟩) ∧
    (catWitnessImg.status = "removed" →
      categorizeStep [] [] ⟨[], [], [], [], []⟩ ("x", catWitnessImg) =
        ⟨[], [], [baseImageFromComparison "x" catWitnessImg], [], []⟩) ∧
    (catWitnessImg.status = "errored" →
      categorizeStep [] [] ⟨[], [], [], [], []⟩ ("x", catWitnessImg) =
        ⟨[], [], [], [],
          [⟨baseImageFromComparison "x" catWitnessImg,
            erroredHeadPlaceholder "x" catWitnessImg, none, none⟩]⟩) ∧
    (categorize_comparison_images catWitnessManifest [] none).changed.length =
      catWitnessManifest.images.countP (keepChanged []) ∧
    (categorize_comparison_images catWitnessManifest [] none).added.length =
      catWitnessManifest.images.countP (keepAdded []) ∧
    (categorize_comparison_images catWitnessManifest [] none).removed.length =
      catWitnessManifest.images.countP isRemovedStatus ∧
    (categorize_comparison_images catWitnessManifest [] none).unchanged.length =
      catWitnessManifest.images.countP (keepUnchanged []) ∧
    (categorize_comparison_images catWitnessManifest [] none).errored.length =
      catWitnessManifest.images.countP isErroredStatus :=
  categorize_missing_head [] [] ⟨[], [], [], [], []⟩ "x" catWitnessImg
    catWitnessManifest none

end Snapshots
